import Mathlib

/-!
Verification of the legal-doc-demystifyer pipeline (Python sources under src/).

Python strings are modelled as `List Char`; Python dicts holding JSON data as
association lists; functions that can raise return `Option` where the raising
path is caught by the enclosing `try/except` in the source.  External effects
(the Gemini model calls, `json.loads`, the file system, the clock) are passed
in as explicit parameters, so every repository function is a total Lean
function of its inputs and of the recorded external outcomes.
-/

/-- Characters removed by Python `str.strip()` (ASCII whitespace). -/
def pySpace (c : Char) : Bool :=
  c = ' ' || c = '\t' || c = '\n' || c = '\r' || c = Char.ofNat 11 || c = Char.ofNat 12

/-- Python `str.strip()` on a character list. -/
def pyStrip (l : List Char) : List Char :=
  ((l.dropWhile pySpace).reverse.dropWhile pySpace).reverse

/-- Python `str.lower()` (ASCII model). -/
def pyLower (l : List Char) : List Char := l.map Char.toLower

/-- `startsWithL needle hay` is Python `hay.startswith(needle)`. -/
def startsWithL : List Char → List Char → Bool
  | [], _ => true
  | _ :: _, [] => false
  | a :: as, b :: bs => a = b && startsWithL as bs

/-- `containsL hay needle` is Python `needle in hay` (substring test). -/
def containsL : List Char → List Char → Bool
  | [], needle => startsWithL needle []
  | h :: t, needle => startsWithL needle (h :: t) || containsL t needle

/-- Python `str.split(c)` for a single-character separator: keeps empty parts. -/
def splitOnChar (c : Char) : List Char → List (List Char)
  | [] => [[]]
  | h :: t =>
    match splitOnChar c t with
    | [] => [[]]
    | r :: rs => if h = c then [] :: r :: rs else (h :: r) :: rs

/-- Python `str.find(c)`: index of the first occurrence of `c`, or `-1`. -/
def pyFindC : List Char → Char → Int
  | [], _ => -1
  | h :: t, c =>
    if h = c then 0
    else if pyFindC t c = -1 then -1 else pyFindC t c + 1

/-- Python `str.rfind(c)`: index of the last occurrence of `c`, or `-1`. -/
def pyRfindC (l : List Char) (c : Char) : Int :=
  if pyFindC l.reverse c = -1 then -1
  else (l.length : Int) - 1 - pyFindC l.reverse c

/-- Python slice `s[a:b]` for non-negative bounds (negatives clamp to 0 here;
the sources only slice with indices coming from `find`/`rfind` guards). -/
def pySlice (l : List Char) (a b : Int) : List Char :=
  (l.take b.toNat).drop a.toNat

/-- Python `str.replace(old, new, 1)`: replace the first occurrence only. -/
def replaceFirst : List Char → List Char → List Char → List Char
  | [], _, _ => []
  | h :: t, needle, repl =>
    if startsWithL needle (h :: t) then repl ++ (h :: t).drop needle.length
    else h :: replaceFirst t needle repl

/-- Python `str.lstrip(chars)` for an explicit character set. -/
def lstripSet (cs : List Char) (l : List Char) : List Char :=
  l.dropWhile (fun c => cs.contains c)

/-- A string has no leading or trailing Python whitespace. -/
def isTrimmed (l : List Char) : Bool :=
  (match l.head? with
   | some c => !pySpace c
   | none => true) &&
  (match l.getLast? with
   | some c => !pySpace c
   | none => true)

/-- JSON values as produced by Python `json.loads` (numbers modelled as
integers; numeric precision plays no role in any claim). -/
inductive Json where
  | null : Json
  | bool : Bool → Json
  | num : Int → Json
  | str : List Char → Json
  | arr : List Json → Json
  | obj : List (List Char × Json) → Json

/-- Lookup in a JSON object (Python dict access by key). -/
def jsonLookup (kvs : List (List Char × Json)) (k : List Char) : Option Json :=
  match kvs with
  | [] => none
  | (k0, v) :: t => if k0 = k then some v else jsonLookup t k

/-- Python `dict.get(k, d)`. -/
def jsonGetD (kvs : List (List Char × Json)) (k : List Char) (d : Json) : Json :=
  (jsonLookup kvs k).getD d

/-- Python truthiness of a JSON value. -/
def pyTruthy : Json → Bool
  | .null => false
  | .bool b => b
  | .num n => !(n == 0)
  | .str s => !s.isEmpty
  | .arr xs => !xs.isEmpty
  | .obj kvs => !kvs.isEmpty

/-- Only hashable Python values may be used as dict keys; lists and dicts
raise `TypeError`. -/
def jsonHashable : Json → Bool
  | .arr _ => false
  | .obj _ => false
  | _ => true

/-- Apostrophe character (used by Python `repr` of strings). -/
def apos : Char := Char.ofNat 39

mutual
/-- Python `str()` of a JSON value, as interpolated by f-strings.  String
escaping inside nested containers is not reproduced (no claim depends on it). -/
def pyStr : Json → List Char
  | .null => "None".data
  | .bool true => "True".data
  | .bool false => "False".data
  | .num n => (toString n).data
  | .str s => s
  | .arr xs => Char.ofNat 91 :: pyReprList xs ++ [Char.ofNat 93]
  | .obj kvs => Char.ofNat 123 :: pyReprObj kvs ++ [Char.ofNat 125]

/-- Python `repr()` of a JSON value (strings get quoted). -/
def pyRepr : Json → List Char
  | .null => "None".data
  | .bool true => "True".data
  | .bool false => "False".data
  | .num n => (toString n).data
  | .str s => apos :: s ++ [apos]
  | .arr xs => Char.ofNat 91 :: pyReprList xs ++ [Char.ofNat 93]
  | .obj kvs => Char.ofNat 123 :: pyReprObj kvs ++ [Char.ofNat 125]

/-- Comma-separated `repr` of list elements. -/
def pyReprList : List Json → List Char
  | [] => []
  | [x] => pyRepr x
  | x :: y :: t => pyRepr x ++ ", ".data ++ pyReprList (y :: t)

/-- Comma-separated `repr` of dict items. -/
def pyReprObj : List (List Char × Json) → List Char
  | [] => []
  | [(k, v)] => apos :: k ++ [apos] ++ ": ".data ++ pyRepr v
  | (k, v) :: x :: t =>
    apos :: k ++ [apos] ++ ": ".data ++ pyRepr v ++ ", ".data ++ pyReprObj (x :: t)
end

/-- Result of Python `json.loads` on a string: `none` models
`json.JSONDecodeError`.  The parser itself is the Python standard library and
is passed in as a parameter. -/
def PyLoads : Type := List Char → Option Json

/-- The closed clause-category set: keys of
`GeminiClauseExtractor.clause_types`, in dict insertion order. -/
def clauseTypeKeys : List (List Char) :=
  ["TERMINATION".data, "PAYMENT".data, "INDEMNIFICATION".data,
   "CONFIDENTIALITY".data, "INTELLECTUAL_PROPERTY".data, "FORCE_MAJEURE".data,
   "GOVERNING_LAW".data, "WARRANTIES".data, "LIMITATION_LIABILITY".data,
   "ASSIGNMENT".data, "AMENDMENT".data, "DELIVERY".data]

/-- Cleaned clause record built by `_parse_clause_response` /
`_fallback_clause_parsing` (dict with fixed keys; `clause_text` has been
through `.strip()` and so is a string, the other values are raw JSON). -/
structure Clause where
  clause_type : Json
  clause_text : List Char
  context : Json
  importance : Json
  sectionVal : Json

/-- Validation loop of `_parse_clause_response` (clause_extractor.py lines
145-162).  `none` models an exception escaping to the generic handler
(`AttributeError` when a present `clause_text` value is not a string). -/
def cleanClauses : List Json → Option (List Clause)
  | [] => some []
  | c :: rest =>
    match c with
    | .obj kvs =>
      match jsonLookup kvs ("clause_type".data), jsonLookup kvs ("clause_text".data) with
      | some _, some tv =>
        (match tv with
         | .str t =>
           let txt := pyStrip t
           let cl : Clause :=
             { clause_type := jsonGetD kvs ("clause_type".data) (.str []),
               clause_text := txt,
               context := jsonGetD kvs ("context".data) (.str []),
               importance := jsonGetD kvs ("importance".data) (.str ("MEDIUM".data)),
               sectionVal := jsonGetD kvs ("section".data) (.str ("Unknown".data)) }
           match cleanClauses rest with
           | none => none
           | some tail => some (if txt.length > 20 then cl :: tail else tail)
         | _ => none)
      | _, _ =>
        match cleanClauses rest with
        | none => none
        | some tail => some tail
    | _ =>
      match cleanClauses rest with
      | none => none
      | some tail => some tail

/-- Python iteration over a JSON value (`for clause in clauses`): lists yield
elements, strings yield 1-character strings, dicts yield their keys; other
values raise `TypeError` (`none`). -/
def pyIterElems : Json → Option (List Json)
  | .arr xs => some xs
  | .str s => some (s.map (fun c => Json.str [c]))
  | .obj kvs => some (kvs.map (fun kv => Json.str kv.fst))
  | _ => none

/-- Substring handed to `json.loads` by `_parse_clause_response` (lines
134-143): the bracketed region when `find('[')` and `rfind(']')` give a
non-empty range, otherwise the whole response. -/
def selectedClauseJsonInput (raw : List Char) : List Char :=
  let s := pyFindC raw (Char.ofNat 91)
  let e := pyRfindC raw (Char.ofNat 93) + 1
  if s ≠ -1 ∧ e > s then pySlice raw s e else raw

/-- Strict-JSON arm of `_parse_clause_response` after a successful
`json.loads`: iterate and validate; `none` is an exception reaching the
generic `except Exception` handler. -/
def strictClean (j : Json) : Option (List Clause) :=
  match pyIterElems j with
  | none => none
  | some elems => cleanClauses elems

/-- Fresh clause dict created by `_fallback_clause_parsing` when a clause-type
line is seen (lines 187-193). -/
def newClauseOf (t : List Char) : Clause :=
  { clause_type := .str t, clause_text := [], context := .str [],
    importance := .str ("MEDIUM".data), sectionVal := .str ("Unknown".data) }

/-- First clause type whose lowercase name occurs in the lowercased line,
provided the line contains a colon (lines 183-194, with the `break`). -/
def clauseTypeHit (line : List Char) : Option (List Char) :=
  clauseTypeKeys.findSome? fun ct =>
    if containsL (pyLower line) (pyLower ct) && containsL line [':'] then some ct else none

/-- Keywords that stop a line from being taken as clause text (line 197). -/
def clauseTextKeywords : List (List Char) :=
  ["type:".data, "context:".data, "importance:".data]

/-- Clause-type scan of one (stripped) line in `_fallback_clause_parsing`
(lines 182-194): on a hit, the current clause is emitted and a fresh one
started. -/
def fallbackClauseNewState (st : List Clause × Option Clause) (line : List Char) :
    List Clause × Option Clause :=
  match clauseTypeHit line with
  | some ct =>
    (match st.2 with
     | some c => (st.1 ++ [c], some (newClauseOf ct))
     | none => (st.1, some (newClauseOf ct)))
  | none => st

/-- Clause-text capture of one (stripped) line (lines 196-199): a long
non-keyword line overwrites the current clause text. -/
def fallbackClauseTextUpdate (st2 : List Clause × Option Clause) (line : List Char) :
    List Clause × Option Clause :=
  match st2.2 with
  | some c =>
    if line ≠ [] ∧ ¬ (clauseTextKeywords.any fun kw => containsL (pyLower line) kw) then
      if line.length > 20 then (st2.1, some { c with clause_text := line })
      else (st2.1, some c)
    else (st2.1, some c)
  | none => (st2.1, none)

/-- Per-line state update of `_fallback_clause_parsing` (lines 179-199); state
is (emitted clauses, current clause or `None`). -/
def fallbackClauseStep (st : List Clause × Option Clause) (rawLine : List Char) :
    List Clause × Option Clause :=
  let line := pyStrip rawLine
  fallbackClauseTextUpdate (fallbackClauseNewState st line) line

/-- `GeminiClauseExtractor._fallback_clause_parsing` (lines 171-204). -/
def fallbackClauseParsing (raw : List Char) : List Clause :=
  let st := (splitOnChar '\n' raw).foldl fallbackClauseStep ([], none)
  match st.2 with
  | some c => st.1 ++ [c]
  | none => st.1

/-- Outcome of the strict-JSON arm of `_parse_clause_response`, with both the
`JSONDecodeError`-free failure path and the generic exception path yielding no
records. -/
def strictUsable (loads : PyLoads) (raw : List Char) : List Clause :=
  match loads (selectedClauseJsonInput raw) with
  | none => []
  | some j => (strictClean j).getD []

/-- `GeminiClauseExtractor._parse_clause_response` (lines 131-169):
`JSONDecodeError` (`loads = none`) falls back to heuristic parsing; any other
exception in the strict arm yields `[]`. -/
def parseClauseResponse (loads : PyLoads) (raw : List Char) : List Clause :=
  match loads (selectedClauseJsonInput raw) with
  | none => fallbackClauseParsing raw
  | some j => (strictClean j).getD []

/-- Color coding of `highlight_clauses_in_text` (clause_extractor.py lines
221-234). -/
def colorMap : List (List Char × List Char) :=
  [("TERMINATION".data, "#ffcccc".data), ("PAYMENT".data, "#ccffcc".data),
   ("INDEMNIFICATION".data, "#ffcc99".data), ("CONFIDENTIALITY".data, "#ccccff".data),
   ("INTELLECTUAL_PROPERTY".data, "#ffccff".data), ("FORCE_MAJEURE".data, "#ffffcc".data),
   ("GOVERNING_LAW".data, "#ccffff".data), ("WARRANTIES".data, "#f0ccff".data),
   ("LIMITATION_LIABILITY".data, "#ffccdd".data), ("ASSIGNMENT".data, "#ccffdd".data),
   ("AMENDMENT".data, "#ddccff".data), ("DELIVERY".data, "#ddffcc".data)]

/-- `color_map.get(clause_type, "#f0f0f0")` for a string key. -/
def colorMapGet (t : List Char) : List Char :=
  ((colorMap.find? fun p => p.1 == t).map Prod.snd).getD ("#f0f0f0".data)

/-- Color chosen for a clause type value (non-string hashable keys miss every
string key of the dict and give the default). -/
def colorFor : Json → List Char
  | .str t => colorMapGet t
  | _ => "#f0f0f0".data

/-- Double-quote character. -/
def dq : Char := Char.ofNat 34

/-- Highlight wrapper built at clause_extractor.py line 247 for a clause with
stripped text `ct`. -/
def highlightSpan (c : Clause) (ct : List Char) : List Char :=
  "<span style=".data ++ [dq] ++ "background-color: ".data ++ colorFor c.clause_type ++
  "; padding: 2px; border-left: 3px solid #333; margin: 2px;".data ++ [dq] ++
  " title=".data ++ [dq] ++ pyStr c.clause_type ++ ": ".data ++ pyStr c.context ++
  [dq] ++ ">".data ++ ct ++ "</span>".data

/-- Stable insertion keeping longer `clause_text` first (equal lengths keep
the original order, as Python `sorted` is stable). -/
def insertByLenDesc (c : Clause) : List Clause → List Clause
  | [] => [c]
  | x :: xs =>
    if c.clause_text.length ≥ x.clause_text.length then c :: x :: xs
    else x :: insertByLenDesc c xs

/-- `sorted(clauses, key=lambda x: len(x.get("clause_text", "")), reverse=True)`
(line 237). -/
def sortClausesByLenDesc : List Clause → List Clause
  | [] => []
  | c :: rest => insertByLenDesc c (sortClausesByLenDesc rest)

/-- One iteration of the loop at lines 239-250: if the stripped clause text is
non-empty and occurs in the working copy, replace its first occurrence by the
wrapper; `none` models the `TypeError` raised by `color_map.get` on an
unhashable clause-type value, which aborts to the outer handler. -/
def highlightStep (ht : List Char) (c : Clause) : Option (List Char) :=
  let ct := pyStrip c.clause_text
  if ct ≠ [] ∧ containsL ht ct = true then
    match c.clause_type with
    | .arr _ => none
    | .obj _ => none
    | _ => some (replaceFirst ht ct (highlightSpan c ct))
  else some ht

/-- Loop of `highlight_clauses_in_text` threading the working copy. -/
def highlightLoop : List Char → List Clause → Option (List Char)
  | ht, [] => some ht
  | ht, c :: rest =>
    match highlightStep ht c with
    | none => none
    | some ht2 => highlightLoop ht2 rest

/-- `GeminiClauseExtractor.highlight_clauses_in_text` (lines 206-256); the
`except` handler returns the original text. -/
def highlightClausesInText (text : List Char) (clauses : List Clause) : List Char :=
  match highlightLoop text (sortClausesByLenDesc clauses) with
  | some ht => ht
  | none => text

/-- Entity categories of `GeminiEntityExtractor.entity_categories`, in dict
insertion order (entity_extractor.py lines 26-35). -/
def entityCategoryKeys : List (List Char) :=
  ["PERSONS".data, "ORGANIZATIONS".data, "LOCATIONS".data, "DATES".data,
   "MONETARY_VALUES".data, "LEGAL_REFERENCES".data, "AGREEMENTS".data,
   "LEGAL_CONCEPTS".data]

/-- Per-element filter of the strict entity cleaning comprehension (lines
164-168): falsy values are skipped, truthy strings are stripped and kept when
longer than 1, truthy non-strings raise `AttributeError` on `.strip()`. -/
def cleanEntityList : List Json → Option (List (List Char))
  | [] => some []
  | e :: rest =>
    if pyTruthy e then
      match e with
      | .str s =>
        (match cleanEntityList rest with
         | none => none
         | some tail =>
           some (if (pyStrip s).length > 1 then pyStrip s :: tail else tail))
      | _ => none
    else
      match cleanEntityList rest with
      | none => none
      | some tail => some tail

/-- Python `list(set(xs))`: modelled as deduplication (the hash-based order
of a Python set is unspecified; the claims proved about it are
order-independent). -/
def pySetList (xs : List (List Char)) : List (List Char) := xs.dedup

/-- Validation loop of `_parse_entity_response` (lines 160-171): per category,
keep only list values, dedup / strip / length-filter them, cap at 20, and keep
the category when the cleaned list is non-empty. -/
def cleanEntities : List (List Char × Json) → Option (List (List Char × List (List Char)))
  | [] => some []
  | (cat, v) :: rest =>
    match v with
    | .arr lst =>
      (match cleanEntityList lst with
       | none => none
       | some cleaned =>
         match cleanEntities rest with
         | none => none
         | some tail =>
           let clean2 := (pySetList cleaned).take 20
           some (if clean2 ≠ [] then (cat, clean2) :: tail else tail))
    | _ =>
      match cleanEntities rest with
      | none => none
      | some tail => some tail

/-- Substring handed to `json.loads` by `_parse_entity_response` (lines
149-157).  Note `end_idx = rfind("}") + 1` is never `-1`, so the braced slice
is taken whenever `find("{")` succeeds, even with no closing brace. -/
def selectedEntityJsonInput (raw : List Char) : List Char :=
  let s := pyFindC raw (Char.ofNat 123)
  let e := pyRfindC raw (Char.ofNat 125) + 1
  if s ≠ -1 ∧ e ≠ -1 then pySlice raw s e else raw

/-- Strict arm of `_parse_entity_response` after `json.loads`: a non-dict
value raises `AttributeError` on `.items()` (generic handler, `{}`). -/
def strictEntities (j : Json) : Option (List (List Char × List (List Char)))
  :=
  match j with
  | .obj kvs => cleanEntities kvs
  | _ => none

/-- Python `str.upper()` (ASCII model). -/
def pyUpper (l : List Char) : List Char := l.map Char.toUpper

/-- Set / replace a key in an insertion-ordered dict. -/
def assocSet {α : Type} (l : List (List Char × α)) (k : List Char) (v : α) :
    List (List Char × α) :=
  match l with
  | [] => [(k, v)]
  | (k0, v0) :: t => if k0 = k then (k0, v) :: t else (k0, v0) :: assocSet t k v

/-- Append one element to the list stored at a (present) key. -/
def assocListAppend (l : List (List Char × List (List Char))) (k : List Char)
    (e : List Char) : List (List Char × List (List Char)) :=
  match l with
  | [] => []
  | (k0, v0) :: t =>
    if k0 = k then (k0, v0 ++ [e]) :: t else (k0, v0) :: assocListAppend t k e

/-- First entity category named (uppercased, with a colon) in a line
(entity_extractor.py lines 193-197, with the `break`). -/
def entityCategoryHit (line : List Char) : Option (List Char) :=
  entityCategoryKeys.findSome? fun cat =>
    if containsL (pyUpper line) cat && containsL line [':'] then some cat else none

/-- Prefixes `"1."` … `"19."` from `any(line.startswith(f"{i}.") for i in
range(1, 20))` (line 201). -/
def numberedPrefixes : List (List Char) :=
  (List.range 19).map fun i => (toString (i + 1)).data ++ ".".data

/-- Category scan of one (stripped) line in `_fallback_entity_parsing`
(lines 192-197): a hit selects the category and resets its list to `[]`. -/
def fallbackEntityNewState
    (st : List (List Char × List (List Char)) × Option (List Char))
    (line : List Char) : List (List Char × List (List Char)) × Option (List Char) :=
  match entityCategoryHit line with
  | some cat => (assocSet st.1 cat [], some cat)
  | none => st

/-- Entity capture of one (stripped) line (lines 199-204): bullet or numbered
lines append their stripped payload to the current category. -/
def fallbackEntityCapture
    (st2 : List (List Char × List (List Char)) × Option (List Char))
    (line : List Char) : List (List Char × List (List Char)) × Option (List Char) :=
  match st2.2 with
  | some cat =>
    if startsWithL ['-'] line || startsWithL ['*'] line ||
        numberedPrefixes.any (fun p => startsWithL p line) then
      let entity := pyStrip (lstripSet ("-*0123456789. ".data) line)
      if entity ≠ [] ∧ entity.length > 1 then (assocListAppend st2.1 cat entity, some cat)
      else st2
    else st2
  | none => st2

/-- Per-line state update of `_fallback_entity_parsing` (lines 189-204); state
is (entities dict, current category or `None`).  A repeated category line
resets that category to `[]`. -/
def fallbackEntityStep (st : List (List Char × List (List Char)) × Option (List Char))
    (rawLine : List Char) : List (List Char × List (List Char)) × Option (List Char) :=
  let line := pyStrip rawLine
  fallbackEntityCapture (fallbackEntityNewState st line) line

/-- `GeminiEntityExtractor._fallback_entity_parsing` (lines 182-206). -/
def fallbackEntityParsing (raw : List Char) : List (List Char × List (List Char)) :=
  ((splitOnChar '\n' raw).foldl fallbackEntityStep ([], none)).1

/-- `GeminiEntityExtractor._parse_entity_response` (lines 145-180). -/
def parseEntityResponse (loads : PyLoads) (raw : List Char) :
    List (List Char × List (List Char)) :=
  match loads (selectedEntityJsonInput raw) with
  | none => fallbackEntityParsing raw
  | some j => (strictEntities j).getD []

/-- Uncertainty phrase list of `GeminiQASystem._estimate_confidence`
(qa_system.py line 307). -/
def uncertainPhrases : List (List Char) :=
  ["might".data, "could".data, "possibly".data, "unclear".data,
   "not specified".data, "not mentioned".data]

/-- Python `max` on two rationals (returns the first argument on ties). -/
def pyMax (a b : ℚ) : ℚ := if b ≤ a then a else b

/-- Python `min` on two rationals (returns the first argument on ties). -/
def pyMin (a b : ℚ) : ℚ := if a ≤ b then a else b

/-- `GeminiQASystem._estimate_confidence` (qa_system.py lines 297-316), with
Python floats modelled as exact rationals. -/
def estimateConfidence (answer : List Char) : ℚ :=
  if answer.isEmpty then 0
  else
    let c1 := uncertainPhrases.foldl
      (fun c p => if containsL (pyLower answer) p then c - 2/10 else c) (8/10)
    let c2 := if containsL answer [dq] ∨ containsL (pyLower answer) ("section".data)
      then c1 + 1/10 else c1
    pyMax (1/10) (pyMin 1 c2)

/-- Round a rational to the nearest integer, ties to even (the IEEE-754
default rounding of the fractional part). -/
def rne (x : ℚ) : ℤ :=
  if x - ⌊x⌋ < 1/2 then ⌊x⌋
  else if 1/2 < x - ⌊x⌋ then ⌊x⌋ + 1
  else if 2 ∣ ⌊x⌋ then ⌊x⌋ else ⌊x⌋ + 1

/-- Round a positive rational to the nearest IEEE-754 binary64 value (53
significant bits, ties to even; the exponent range is unbounded here, which
is faithful for the well-within-range magnitudes of this program). -/
def flPos (q : ℚ) : ℚ :=
  (rne (q * (2:ℚ) ^ ((52:ℤ) - Int.log 2 q)) : ℚ) * (2:ℚ) ^ (Int.log 2 q - (52:ℤ))

/-- Round a rational to the nearest IEEE-754 binary64 value. -/
def fl (q : ℚ) : ℚ :=
  if q < 0 then -flPos (-q) else if q = 0 then 0 else flPos q

/-- IEEE-754 binary64 subtraction: the exact difference, correctly rounded. -/
def fsub (a b : ℚ) : ℚ := fl (a - b)

/-- IEEE-754 binary64 addition: the exact sum, correctly rounded. -/
def fadd (a b : ℚ) : ℚ := fl (a + b)

/-- `GeminiQASystem._estimate_confidence` (qa_system.py lines 297-316) under
IEEE-754 binary64 semantics: every float literal is the nearest double and
every `+`/`-` is correctly rounded, as in CPython; comparisons in the final
`max`/`min` clamp are exact. -/
def estimateConfidenceFl (answer : List Char) : ℚ :=
  if answer.isEmpty then 0
  else
    let c1 := uncertainPhrases.foldl
      (fun c p => if containsL (pyLower answer) p then fsub c (fl (2/10)) else c) (fl (8/10))
    let c2 := if containsL answer [dq] ∨ containsL (pyLower answer) ("section".data)
      then fadd c1 (fl (1/10)) else c1
    pyMax (fl (1/10)) (pyMin (fl 1) c2)

/-- Answer string of the worked confidence example. -/
def c9Answer : List Char := "This might possibly be the case".data

/-- Summary payload of `GeminiSummarizer.summarize_document`. -/
structure SummaryData where
  summary : List Char
  summary_type : List Char
  original_length : Nat
  summary_length : Nat
  compression_ratio : ℚ
  key_points : List (List Char)

/-- Prefixes recognised by `_extract_key_points` (summarizer.py line 255). -/
def keyPointPrefixes : List (List Char) :=
  ["1.".data, "2.".data, "3.".data, "4.".data, "5.".data, "•".data, "-".data, "*".data]

/-- `GeminiSummarizer._extract_key_points` (summarizer.py lines 248-261). -/
def extractKeyPoints (summaryText : List Char) : List (List Char) :=
  (((splitOnChar '\n' summaryText).map pyStrip).filter fun line =>
    ((keyPointPrefixes.any fun p => startsWithL p line) ||
      containsL (pyLower line) ("key".data) ||
      containsL (pyLower line) ("important".data) ||
      containsL (pyLower line) ("critical".data)) &&
    line.length > 10).take 10

/-- Except-branch payload of `summarize_document` (summarizer.py lines 55-64). -/
def summaryErrorData (text stype : List Char) : SummaryData :=
  { summary := "Error generating summary".data, summary_type := stype,
    original_length := text.length, summary_length := 0,
    compression_ratio := 0, key_points := [] }

/-- `GeminiSummarizer.summarize_document` (lines 23-64); `resp` is the text
of the external model response, `none` when the call raised. -/
def summarizeDocument (resp : Option (List Char)) (text stype : List Char) : SummaryData :=
  match resp with
  | none => summaryErrorData text stype
  | some rt =>
    { summary := rt, summary_type := stype, original_length := text.length,
      summary_length := rt.length,
      compression_ratio := if text.length > 0 then (rt.length : ℚ) / (text.length : ℚ) else 0,
      key_points := extractKeyPoints rt }

/-- Prefixes `"1."` … `"99."` from `any(line.startswith(f"{i}.") for i in
range(1, 100))` (summarizer.py line 137). -/
def bulletNumberedPrefixes : List (List Char) :=
  (List.range 99).map fun i => (toString (i + 1)).data ++ ".".data

/-- `GeminiSummarizer.generate_bullet_points` (lines 107-140); the prompt text
is external, only the response is parsed. -/
def generateBulletPoints (resp : Option (List Char)) : List (List Char) :=
  match resp with
  | none => []
  | some rt =>
    ((splitOnChar '\n' rt).map pyStrip).filter fun line =>
      !line.isEmpty &&
      (startsWithL ("•".data) line || startsWithL ("-".data) line ||
       startsWithL ("*".data) line ||
       bulletNumberedPrefixes.any fun p => startsWithL p line)

/-- Risk analysis payload (summarizer.py `_parse_risk_analysis`). -/
structure RiskData where
  high_risks : List (List Char)
  medium_risks : List (List Char)
  recommendations : List (List Char)
  compliance_notes : List (List Char)

/-- Section currently accumulating in `_parse_risk_analysis`. -/
inductive RiskSection where
  | high : RiskSection
  | medium : RiskSection
  | recs : RiskSection
  | comp : RiskSection

/-- Append a parsed item to the current risk section. -/
def riskAppend (a : RiskData) : RiskSection → List Char → RiskData
  | .high, e => { a with high_risks := a.high_risks ++ [e] }
  | .medium, e => { a with medium_risks := a.medium_risks ++ [e] }
  | .recs, e => { a with recommendations := a.recommendations ++ [e] }
  | .comp, e => { a with compliance_notes := a.compliance_notes ++ [e] }

/-- Per-line update of `_parse_risk_analysis` (summarizer.py lines 263-290). -/
def parseRiskStep (st : RiskData × Option RiskSection) (rawLine : List Char) :
    RiskData × Option RiskSection :=
  let line := pyStrip rawLine
  if containsL (pyUpper line) ("HIGH RISK".data) then (st.1, some .high)
  else if containsL (pyUpper line) ("MEDIUM RISK".data) then (st.1, some .medium)
  else if containsL (pyUpper line) ("RECOMMENDATIONS".data) then (st.1, some .recs)
  else if containsL (pyUpper line) ("COMPLIANCE".data) then (st.1, some .comp)
  else if startsWithL ("-".data) line then
    match st.2 with
    | some sec => (riskAppend st.1 sec (pyStrip (line.drop 1)), st.2)
    | none => st
  else st

/-- Empty risk payload (both the initial accumulator of
`_parse_risk_analysis` and the except-branch default of
`analyze_legal_risks`). -/
def emptyRiskData : RiskData := ⟨[], [], [], []⟩

/-- `GeminiSummarizer._parse_risk_analysis` (lines 263-290). -/
def parseRiskAnalysis (text : List Char) : RiskData :=
  ((splitOnChar '\n' text).foldl parseRiskStep (emptyRiskData, none)).1

/-- `GeminiSummarizer.analyze_legal_risks` (lines 142-186). -/
def analyzeLegalRisks (resp : Option (List Char)) : RiskData :=
  match resp with
  | none => emptyRiskData
  | some rt => parseRiskAnalysis rt

/-- Comparison payload of `GeminiSummarizer.compare_documents`. -/
structure ComparisonData where
  comparison_text : List Char
  doc1_name : List Char
  doc2_name : List Char
  analysis_date : List Char

/-- `GeminiSummarizer.compare_documents` (lines 189-245); `timestamp` is the
external clock value of `_get_current_timestamp`. -/
def compareDocuments (resp : Option (List Char)) (timestamp doc1Name doc2Name : List Char) :
    ComparisonData :=
  match resp with
  | none =>
    { comparison_text := "Error comparing documents".data, doc1_name := doc1Name,
      doc2_name := doc2Name, analysis_date := timestamp }
  | some rt =>
    { comparison_text := rt, doc1_name := doc1Name, doc2_name := doc2Name,
      analysis_date := timestamp }

/-- Question bank `GeminiQASystem.question_categories` (qa_system.py lines
25-55), in dict insertion order. -/
def questionCategories : List (List Char × List (List Char)) :=
  [("parties".data,
    ["Who are the parties to this agreement?".data,
     "What are the roles of each party?".data,
     "Who is the primary contractor/client?".data]),
   ("terms".data,
    ["What is the duration of this agreement?".data,
     "When does this contract expire?".data,
     "What are the key dates and deadlines?".data]),
   ("payment".data,
    ["What are the payment terms?".data,
     "How much will be paid and when?".data,
     "Are there any penalty fees mentioned?".data]),
   ("termination".data,
    ["How can this agreement be terminated?".data,
     "What notice period is required for termination?".data,
     "What happens upon termination?".data]),
   ("obligations".data,
    ["What are the main obligations of each party?".data,
     "What deliverables are expected?".data,
     "What are the performance requirements?".data]),
   ("legal".data,
    ["What law governs this agreement?".data,
     "How are disputes resolved?".data,
     "Are there any liability limitations?".data])]

/-- Default questions returned by the except branch of
`get_suggested_questions` (qa_system.py lines 287-296). -/
def defaultQuestions : List (List Char) :=
  ["Who are the parties to this agreement?".data,
   "What are the main terms and conditions?".data,
   "What are the payment obligations?".data,
   "How can this agreement be terminated?".data,
   "What are the key dates and deadlines?".data,
   "What law governs this agreement?".data]

/-- Everything after the first dot (Python `line.split(".", 1)[-1]` when a dot
is present). -/
def afterFirstDot : List Char → List Char
  | [] => []
  | h :: t => if h = '.' then t else afterFirstDot t

/-- Two questions from each category (qa_system.py lines 273-277). -/
def categoryQuestions : List (List Char) :=
  (questionCategories.map fun p => p.2.take 2).flatten

/-- Fill loop of `get_suggested_questions` (lines 279-281). -/
def fillQuestions (sq : List (List Char)) : List (List Char) :=
  categoryQuestions.foldl
    (fun acc q => if acc.length < 8 ∧ ¬ acc.contains q then acc ++ [q] else acc) sq

/-- `GeminiQASystem.get_suggested_questions` (lines 227-296). -/
def getSuggestedQuestions (resp : Option (List Char)) : List (List Char) :=
  match resp with
  | none => defaultQuestions
  | some rt =>
    let sq := ((splitOnChar '\n' rt).map pyStrip).foldl
      (fun acc line =>
        if !line.isEmpty &&
            ((match line.head? with | some c => c.isDigit | none => false) ||
             startsWithL ("-".data) line || startsWithL ("•".data) line) then
          let q0 := if containsL line ['.'] then pyStrip (afterFirstDot line) else pyStrip line
          let q := pyStrip (lstripSet ("- •".data) q0)
          if !q.isEmpty && q.length > 10 && q.getLast? == some '?' then acc ++ [q] else acc
        else acc) []
    let sq2 := if sq.length < 6 then fillQuestions sq else sq
    sq2.take 10

mutual
/-- Python `==` on JSON values (dict keys reaching this are hashable, so the
order-insensitivity of Python dict equality never matters here). -/
def Json.beq : Json → Json → Bool
  | .null, .null => true
  | .bool a, .bool b => a == b
  | .num a, .num b => a == b
  | .str a, .str b => a == b
  | .arr a, .arr b => Json.beqList a b
  | .obj a, .obj b => Json.beqObj a b
  | _, _ => false

/-- Elementwise `Json.beq` on lists. -/
def Json.beqList : List Json → List Json → Bool
  | [], [] => true
  | a :: as, b :: bs => Json.beq a b && Json.beqList as bs
  | _, _ => false

/-- Itemwise `Json.beq` on objects. -/
def Json.beqObj : List (List Char × Json) → List (List Char × Json) → Bool
  | [], [] => true
  | (k1, v1) :: as, (k2, v2) :: bs => k1 == k2 && Json.beq v1 v2 && Json.beqObj as bs
  | _, _ => false
end

/-- Lookup in a JSON-keyed counting dict. -/
def jassocGet (l : List (Json × Nat)) (k : Json) : Option Nat :=
  match l with
  | [] => none
  | (k0, v) :: t => if Json.beq k0 k then some v else jassocGet t k

/-- Set / replace in a JSON-keyed counting dict. -/
def jassocSet (l : List (Json × Nat)) (k : Json) (v : Nat) : List (Json × Nat) :=
  match l with
  | [] => [(k, v)]
  | (k0, v0) :: t => if Json.beq k0 k then (k0, v) :: t else (k0, v0) :: jassocSet t k v

/-- Key-presence test in a JSON-keyed counting dict. -/
def jassocHasKey (l : List (Json × Nat)) (k : Json) : Bool :=
  (jassocGet l k).isSome

/-- Message of the `TypeError` raised when an unhashable value is used as a
dict key. -/
def unhashableMsg : Json → List Char
  | .arr _ => "unhashable type: ".data ++ [apos] ++ "list".data ++ [apos]
  | .obj _ => "unhashable type: ".data ++ [apos] ++ "dict".data ++ [apos]
  | _ => []

/-- Counting loop of `generate_clause_summary` (clause_extractor.py lines
279-287); `Except.error` models the `TypeError` on an unhashable key. -/
def clauseCounts : List Clause → (List (Json × Nat) × List (Json × Nat)) →
    Except (List Char) (List (Json × Nat) × List (Json × Nat))
  | [], st => .ok st
  | c :: rest, (dist, imp) =>
    if jsonHashable c.clause_type then
      let dist2 := jassocSet dist c.clause_type ((jassocGet dist c.clause_type).getD 0 + 1)
      if jsonHashable c.importance then
        clauseCounts rest (dist2, jassocSet imp c.importance ((jassocGet imp c.importance).getD 0 + 1))
      else .error (unhashableMsg c.importance)
    else .error (unhashableMsg c.clause_type)

/-- Initial `importance_counts` dict (line 280). -/
def initialImportance : List (Json × Nat) :=
  [(.str ("HIGH".data), 0), (.str ("MEDIUM".data), 0), (.str ("LOW".data), 0)]

/-- Clause-summary payload: dict with key sets differing per branch of
`generate_clause_summary`, so the possibly-absent keys are `Option`s. -/
structure ClauseSummary where
  total_clauses : Nat
  high_importance : Option Nat
  clause_distribution : Option (List (Json × Nat))
  importance_distribution : Option (List (Json × Nat))
  key_findings : Option (List (List Char))
  recommendations : Option (List (List Char))
  error : Option (List Char)

/-- `GeminiClauseExtractor.generate_clause_summary` (lines 258-327). -/
def generateClauseSummary (clauses : List Clause) : ClauseSummary :=
  if clauses.isEmpty then
    { total_clauses := 0, high_importance := some 0, clause_distribution := some [],
      importance_distribution := none, key_findings := some [],
      recommendations := some [], error := none }
  else
    match clauseCounts clauses ([], initialImportance) with
    | .error msg =>
      { total_clauses := clauses.length, high_importance := none,
        clause_distribution := none, importance_distribution := none,
        key_findings := none, recommendations := none, error := some msg }
    | .ok (dist, imp) =>
      let highClauses := clauses.filter fun c => Json.beq c.importance (.str ("HIGH".data))
      let kf1 := if !highClauses.isEmpty then
          ["Found ".data ++ (toString highClauses.length).data ++
           " high-importance clauses requiring attention".data] else []
      let kf2 := if jassocHasKey dist (.str ("TERMINATION".data)) then
          ["Document contains termination provisions".data] else []
      let kf3 := if jassocHasKey dist (.str ("PAYMENT".data)) then
          ["Payment terms are specified in the document".data] else []
      let hi := (jassocGet imp (.str ("HIGH".data))).getD 0
      let r1 := if hi > 0 then ["Review all high-importance clauses carefully".data] else []
      let r2 := if ¬ jassocHasKey dist (.str ("LIMITATION_LIABILITY".data)) then
          ["Consider adding liability limitation clauses".data] else []
      let r3 := if ¬ jassocHasKey dist (.str ("GOVERNING_LAW".data)) then
          ["Ensure governing law and jurisdiction are specified".data] else []
      { total_clauses := clauses.length, high_importance := some hi,
        clause_distribution := some dist, importance_distribution := some imp,
        key_findings := some (kf1 ++ kf2 ++ kf3),
        recommendations := some (r1 ++ r2 ++ r3), error := none }

/-- Entity payload of `GeminiEntityExtractor.extract_entities`. -/
structure EntityData where
  entities : List (List Char × List (List Char))
  extraction_type : List Char
  total_entities : Nat
  categories_found : List (List Char)
  text_length : Nat

/-- Except-branch payload of `extract_entities` (lines 71-79). -/
def entityErrorData (etype : List Char) (tlen : Nat) : EntityData :=
  { entities := [], extraction_type := etype, total_entities := 0,
    categories_found := [], text_length := tlen }

/-- `GeminiEntityExtractor.extract_entities` (lines 37-79). -/
def extractEntities (resp : Option (List Char)) (loads : PyLoads) (text etype : List Char) :
    EntityData :=
  match resp with
  | none => entityErrorData etype text.length
  | some rt =>
    let ents := parseEntityResponse loads rt
    { entities := ents, extraction_type := etype,
      total_entities := (ents.map fun p => p.2.length).sum,
      categories_found := ents.map Prod.fst, text_length := text.length }

/-- Clause payload of `GeminiClauseExtractor.extract_clauses`. -/
structure ClauseData where
  clauses : List Clause
  total_clauses_found : Nat
  clause_types_searched : List (List Char)
  document_length : Nat

/-- Except-branch payload of `extract_clauses` (lines 73-80). -/
def clauseErrorData (searched : List (List Char)) (dlen : Nat) : ClauseData :=
  { clauses := [], total_clauses_found := 0, clause_types_searched := searched,
    document_length := dlen }

/-- `GeminiClauseExtractor.extract_clauses` (lines 41-80); `cts = none` means
the caller passed `clause_types=None`, replaced by all keys before any
fallible step, so both branches report the resolved list. -/
def extractClauses (resp : Option (List Char)) (loads : PyLoads) (text : List Char)
    (cts : Option (List (List Char))) : ClauseData :=
  let searched := cts.getD clauseTypeKeys
  match resp with
  | none => clauseErrorData searched text.length
  | some rt =>
    let cs := parseClauseResponse loads rt
    { clauses := cs, total_clauses_found := cs.length,
      clause_types_searched := searched, document_length := text.length }

/-- Relationship payload of `extract_legal_relationships`. -/
structure RelationshipData where
  relationships : List (List Char × List (List Char))
  analysis_type : List Char
  total_relationships : Nat

/-- `GeminiEntityExtractor.extract_legal_relationships` (lines 208-254). -/
def extractLegalRelationships (resp : Option (List Char)) (loads : PyLoads) :
    RelationshipData :=
  match resp with
  | none =>
    { relationships := [], analysis_type := "legal_relationships".data,
      total_relationships := 0 }
  | some rt =>
    let rels := parseEntityResponse loads rt
    { relationships := rels, analysis_type := "legal_relationships".data,
      total_relationships := (rels.map fun p => p.2.length).sum }

/-- Text-extraction payload (`_extract_document_text` always returns a dict
of this shape — its internal try/except chain never raises). -/
structure TextData where
  text : List Char
  pages : Nat
  entities : List Json
  tables : List Json
  confidence : ℚ

/-- Analysis options dict, restricted to the keys the processors consult
(each `get` default is the value used when the caller passed `None`). -/
structure AnalysisOptions where
  extract_text : Bool
  generate_summary : Bool
  extract_entities : Bool
  extract_clauses : Bool
  generate_qa_suggestions : Bool
  generate_bullet_points : Bool
  analyze_risks : Bool
  extract_relationships : Bool
  compare_documents : Bool
  summary_type : List Char
  entity_extraction_type : List Char
  clause_types : Option (List (List Char))

/-- Options substituted for `analysis_options=None`
(enhanced_processor.py lines 51-62 / document_processor.py lines 45-54,
completed by the `.get` defaults of the keys those dicts omit). -/
def defaultAnalysisOptions : AnalysisOptions :=
  { extract_text := true, generate_summary := true, extract_entities := true,
    extract_clauses := true, generate_qa_suggestions := true,
    generate_bullet_points := true, analyze_risks := true,
    extract_relationships := false, compare_documents := false,
    summary_type := "comprehensive".data,
    entity_extraction_type := "comprehensive".data, clause_types := none }

/-- Recorded external outcomes for one document run: file validation, the
extraction result, the text of each model response (`none` = the call
raised), and the JSON parser. -/
structure Env where
  validateOk : Bool
  extractData : TextData
  summaryResp : Option (List Char)
  entityResp : Option (List Char)
  clauseResp : Option (List Char)
  qaResp : Option (List Char)
  bulletResp : Option (List Char)
  riskResp : Option (List Char)
  relResp : Option (List Char)
  loads : PyLoads

/-- `os.path.basename` for forward-slash paths. -/
def basename (p : List Char) : List Char :=
  ((splitOnChar '/' p).getLast?).getD []

/-- Result dict of `process_document` (both processors): absent keys are
`none`. -/
structure Results where
  file_path : List Char
  file_name : Option (List Char)
  analysis_options : AnalysisOptions
  status : List Char
  error : Option (List Char)
  text_extraction : Option TextData
  summary : Option SummaryData
  entities : Option EntityData
  clauses : Option ClauseData
  highlighted_text : Option (List Char)
  clause_summary : Option ClauseSummary
  suggested_questions : Option (List (List Char))
  qa_ready_text : Option (List Char)
  bullet_points : Option (List (List Char))
  risk_analysis : Option RiskData
  relationships : Option RelationshipData

/-- Dict returned by the top-level `except` handler of `process_document`
(only `file_path`, `status`, `error`, `analysis_options`). -/
def exceptResult (filePath : List Char) (opts : AnalysisOptions) (msg : List Char) : Results :=
  { file_path := filePath, file_name := none, analysis_options := opts,
    status := "failed".data, error := some msg,
    text_extraction := none, summary := none, entities := none, clauses := none,
    highlighted_text := none, clause_summary := none, suggested_questions := none,
    qa_ready_text := none, bullet_points := none, risk_analysis := none,
    relationships := none }

/-- Message of the `ValueError` raised on a failed validation. -/
def invalidFileMsg (p : List Char) : List Char := "Invalid file: ".data ++ p

/-- Message of the `NameError` raised by reading `text_data` when the
extract-text stage was disabled and the variable was never bound. -/
def nameErrorMsg : List Char :=
  "name ".data ++ [apos] ++ "text_data".data ++ [apos] ++ " is not defined".data

/-- Error recorded when extraction yields no text. -/
def noTextMsg : List Char := "No text could be extracted from document".data

/-- Base results dict built at the top of the `try` block, with the
text-extraction entry already recorded. -/
def baseResults (filePath : List Char) (opts : AnalysisOptions) (td : TextData) : Results :=
  { file_path := filePath, file_name := some (basename filePath),
    analysis_options := opts, status := "processing".data, error := none,
    text_extraction := some td, summary := none, entities := none, clauses := none,
    highlighted_text := none, clause_summary := none, suggested_questions := none,
    qa_ready_text := none, bullet_points := none, risk_analysis := none,
    relationships := none }

/-- `EnhancedLegalDocumentProcessor.process_document`
(enhanced_processor.py lines 40-154).  Validation failure raises `ValueError`
and `extract_text=False` leaves `text_data` unbound so the read at line 87
raises `NameError`; both land in the top-level handler.  Empty extracted text
returns early with status `failed`; otherwise every enabled stage runs (each
component catches its own failures) and status becomes `completed`. -/
def enhancedProcessDocument (env : Env) (filePath : List Char)
    (optsIn : Option AnalysisOptions) : Results :=
  let opts := optsIn.getD defaultAnalysisOptions
  if !env.validateOk then exceptResult filePath opts (invalidFileMsg filePath)
  else if !opts.extract_text then exceptResult filePath opts nameErrorMsg
  else
    let td := env.extractData
    let base := baseResults filePath opts td
    if td.text.isEmpty then { base with status := "failed".data, error := some noTextMsg }
    else
      let docText := td.text
      let r1 := if opts.generate_summary then
          { base with summary := some (summarizeDocument env.summaryResp docText opts.summary_type) }
        else base
      let r2 := if opts.extract_entities then
          { r1 with entities := some (extractEntities env.entityResp env.loads docText opts.entity_extraction_type) }
        else r1
      let r3 :=
        if opts.extract_clauses then
          let cd := extractClauses env.clauseResp env.loads docText opts.clause_types
          let r3a := { r2 with clauses := some cd }
          if !cd.clauses.isEmpty then
            { r3a with
              highlighted_text := some (highlightClausesInText docText cd.clauses),
              clause_summary := some (generateClauseSummary cd.clauses) }
          else r3a
        else r2
      let r4 := if opts.generate_qa_suggestions then
          { r3 with suggested_questions := some (getSuggestedQuestions env.qaResp),
                    qa_ready_text := some (docText.take 10000) }
        else r3
      let r5 := if opts.generate_bullet_points then
          { r4 with bullet_points := some (generateBulletPoints env.bulletResp) }
        else r4
      let r6 := if opts.analyze_risks then
          { r5 with risk_analysis := some (analyzeLegalRisks env.riskResp) }
        else r5
      { r6 with status := "completed".data }

/-- `LegalDocumentProcessor.process_document` (document_processor.py lines
34-125): same skeleton, with stages summary, entities, bullet points, risks
and (optionally) relationships. -/
def legalProcessDocument (env : Env) (filePath : List Char)
    (optsIn : Option AnalysisOptions) : Results :=
  let opts := optsIn.getD defaultAnalysisOptions
  if !env.validateOk then exceptResult filePath opts (invalidFileMsg filePath)
  else if !opts.extract_text then exceptResult filePath opts nameErrorMsg
  else
    let td := env.extractData
    let base := baseResults filePath opts td
    if td.text.isEmpty then { base with status := "failed".data, error := some noTextMsg }
    else
      let docText := td.text
      let r1 := if opts.generate_summary then
          { base with summary := some (summarizeDocument env.summaryResp docText opts.summary_type) }
        else base
      let r2 := if opts.extract_entities then
          { r1 with entities := some (extractEntities env.entityResp env.loads docText opts.entity_extraction_type) }
        else r1
      let r3 := if opts.generate_bullet_points then
          { r2 with bullet_points := some (generateBulletPoints env.bulletResp) }
        else r2
      let r4 := if opts.analyze_risks then
          { r3 with risk_analysis := some (analyzeLegalRisks env.riskResp) }
        else r3
      let r5 := if opts.extract_relationships then
          { r4 with relationships := some (extractLegalRelationships env.relResp env.loads) }
        else r4
      { r5 with status := "completed".data }

/-- Recorded external outcomes for a batch run: one `Env` per file path, plus
the comparison call outcome and the clock. -/
structure BatchEnv where
  docEnv : List Char → Env
  compareResp : Option (List Char)
  timestamp : List Char

/-- Result of `_compare_multiple_documents`: either a comparison payload or
an error dict. -/
inductive MultiComparison where
  | comparison : ComparisonData → MultiComparison
  | failure : List Char → MultiComparison

/-- `LegalDocumentProcessor._compare_multiple_documents` (document_processor.py
lines 224-246), applied to the successfully processed results. -/
def compareMultipleDocuments (benv : BatchEnv) (results : List Results) : MultiComparison :=
  match results with
  | r1 :: r2 :: _ =>
    (match r1.text_extraction, r2.text_extraction, r1.file_name, r2.file_name with
     | some _, some _, some n1, some n2 =>
       .comparison (compareDocuments benv.compareResp benv.timestamp n1 n2)
     | _, _, _, _ =>
       .failure ("Comparison failed: ".data ++ [apos] ++ "text_extraction".data ++ [apos]))
  | _ => .failure ("Need at least 2 documents for comparison".data)

/-- Batch result dict of `process_multiple_documents`. -/
structure BatchResults where
  total_documents : Nat
  processed_successfully : Nat
  failed : Nat
  individual_results : List (List Char × Results)
  summary_comparison : Option MultiComparison

/-- Loop state of `process_multiple_documents`: the two counters, the
`individual_results` dict (keyed by file path!) and the local list of
successful results. -/
structure BatchState where
  suc : Nat
  fails : Nat
  individual : List (List Char × Results)
  sucList : List Results

/-- Document loop of `process_multiple_documents` (document_processor.py lines
148-158). -/
def batchLoop (benv : BatchEnv) (optsIn : Option AnalysisOptions) :
    List (List Char) → BatchState → BatchState
  | [], st => st
  | p :: ps, st =>
    let r := legalProcessDocument (benv.docEnv p) p optsIn
    let st2 : BatchState :=
      if r.status = "completed".data then
        { suc := st.suc + 1, fails := st.fails,
          individual := assocSet st.individual p r, sucList := st.sucList ++ [r] }
      else
        { suc := st.suc, fails := st.fails + 1,
          individual := assocSet st.individual p r, sucList := st.sucList }
    batchLoop benv optsIn ps st2

/-- `LegalDocumentProcessor.process_multiple_documents` (lines 127-165).
`individual_results` is a dict keyed by file path, so a repeated path
overwrites its earlier entry while both runs are counted. -/
def processMultipleDocuments (benv : BatchEnv) (paths : List (List Char))
    (optsIn : Option AnalysisOptions) : BatchResults :=
  let st := batchLoop benv optsIn paths ⟨0, 0, [], []⟩
  let cmp :=
    if st.sucList.length ≥ 2 ∧ optsIn.isSome ∧
        (optsIn.map fun o => o.compare_documents).getD false then
      some (compareMultipleDocuments benv st.sucList)
    else none
  { total_documents := paths.length, processed_successfully := st.suc,
    failed := st.fails, individual_results := st.individual,
    summary_comparison := cmp }

/-- JSON parse outcome that always fails (real `json.loads` raises
`JSONDecodeError` on every concrete input it is applied to below). -/
def loadsNone : PyLoads := fun _ => none

/-- Concrete model response whose bracketed substring is valid JSON carrying
a clause type outside the closed set. -/
def rawA : List Char :=
  "[\x7b\"clause_type\": \"FOO\", \"clause_text\": \"aaaaaaaaaaaaaaaaaaaaaaaaa\"\x7d]".data

/-- Value of `json.loads` on `rawA`. -/
def jsonA : Json :=
  .arr [.obj [("clause_type".data, .str ("FOO".data)),
              ("clause_text".data, .str ("aaaaaaaaaaaaaaaaaaaaaaaaa".data))]]

/-- JSON parse behaving as `json.loads` does on the concrete responses used
below: `rawA` parses to `jsonA`, everything else raises. -/
def loadsC2 : PyLoads := fun s => if s = rawA then some jsonA else none

/-- Concrete non-JSON model response naming a clause type. -/
def rawB : List Char := "TERMINATION: x".data

/-- Concrete non-JSON entity response listing the same entity twice. -/
def rawE8 : List Char := "PERSONS:\n- John\n- John".data

/-- Concrete document for the highlighting claims. -/
def docC6 : List Char := "AAAAA".data

/-- Clause whose text covers the whole document `docC6`. -/
def c1C6 : Clause :=
  { clause_type := .str ("PAYMENT".data), clause_text := "AAAAA".data,
    context := .str [], importance := .str ("MEDIUM".data),
    sectionVal := .str ("Unknown".data) }

/-- Clause whose text "span" occurs only inside the markup inserted for
`c1C6`, never in `docC6` itself. -/
def c2C6 : Clause :=
  { clause_type := .str ("X".data), clause_text := "span".data,
    context := .str [], importance := .str ("MEDIUM".data),
    sectionVal := .str ("Unknown".data) }

/-- Working copy after annotating `c1C6` in `docC6`. -/
def c6Step1 : List Char := highlightSpan c1C6 ("AAAAA".data)

/-- Extraction outcome with no text. -/
def tdEmpty : TextData := ⟨[], 0, [], [], 0⟩

/-- Extraction outcome with the two-character text "ab". -/
def tdAB : TextData := ⟨"ab".data, 1, [], [], 1⟩

/-- Environment of a run whose extraction yields no text. -/
def envNoText : Env := ⟨true, tdEmpty, none, none, none, none, none, none, none, loadsNone⟩

/-- Environment of a run with non-empty text and every model call raising. -/
def envAB : Env := ⟨true, tdAB, none, none, none, none, none, none, none, loadsNone⟩

/-- Batch environment: extraction fails for "a.txt", succeeds elsewhere. -/
def benvC7 : BatchEnv :=
  { docEnv := fun p => if p = "a.txt".data then envNoText else envAB,
    compareResp := none, timestamp := [] }

/-- Batch with a repeated successful path after one failing path. -/
def pathsC7 : List (List Char) := ["a.txt".data, "b.txt".data, "b.txt".data]

/-- Options with the extract-text stage disabled. -/
def optsNoExtract : AnalysisOptions := { defaultAnalysisOptions with extract_text := false }

/-- Generic lookup in an insertion-ordered dict. -/
def assocLookup {α : Type} (l : List (List Char × α)) (k : List Char) : Option α :=
  match l with
  | [] => none
  | (k0, v) :: t => if k0 = k then some v else assocLookup t k

/-- A clause record carries a clause type drawn from the closed category
set. -/
def ClauseTypeOk (r : Clause) : Prop :=
  ∃ t, r.clause_type = Json.str t ∧ t ∈ clauseTypeKeys

/-- Every entry of an entity list is longer than one character and carries no
surrounding whitespace. -/
def EntityListOk (lst : List (List Char)) : Prop :=
  ∀ e ∈ lst, e.length > 1 ∧ isTrimmed e = true

/-- Invariant of the fallback clause-parsing loop state. -/
def FallbackInv (st : List Clause × Option Clause) : Prop :=
  (∀ r ∈ st.1, ClauseTypeOk r) ∧ (∀ c, st.2 = some c → ClauseTypeOk c)

/-- Membership witness extracted from a successful `findSome?`. -/
theorem findSome?_some_mem {α β : Type} (f : α → Option β) :
    ∀ (l : List α) (b : β), l.findSome? f = some b → ∃ a ∈ l, f a = some b := by
  intro l
  induction l with
  | nil => intro b h; simp [List.findSome?] at h
  | cons a t ih =>
    intro b h
    rw [List.findSome?_cons] at h
    cases hfa : f a with
    | some b2 => rw [hfa] at h; exact ⟨a, List.mem_cons_self a t, hfa.trans h⟩
    | none =>
      rw [hfa] at h
      obtain ⟨x, hx, hfx⟩ := ih b h
      exact ⟨x, List.mem_cons_of_mem a hx, hfx⟩

/-- C1: for every response string and every outcome of the external JSON
parse, `_parse_clause_response` returns the output of one of its two parse
arms — no exception propagates to the caller — and when both the strict arm
and the heuristic fallback yield no usable records, the result is the empty
list. -/
theorem C1_parse_clause_response_safe (loads : PyLoads) (raw : List Char) :
    (parseClauseResponse loads raw = strictUsable loads raw ∨
      parseClauseResponse loads raw = fallbackClauseParsing raw) ∧
    (strictUsable loads raw = [] → fallbackClauseParsing raw = [] →
      parseClauseResponse loads raw = []) := by
  unfold parseClauseResponse strictUsable
  cases h : loads (selectedClauseJsonInput raw) with
  | none => exact ⟨Or.inr rfl, fun _ h2 => h2⟩
  | some j => exact ⟨Or.inl rfl, fun h1 _ => h1⟩

/-- Witness for C1: the empty response under a failing JSON parse yields the
empty clause list. -/
theorem C1_witness : parseClauseResponse loadsNone [] = [] :=
  (C1_parse_clause_response_safe loadsNone []).2 rfl rfl

/-- Left argument is a lower bound of the Python max. -/
theorem le_pyMax_left (a b : ℚ) : a ≤ pyMax a b := by
  unfold pyMax
  split
  · exact le_refl a
  · exact le_of_not_le (by assumption)

/-- Upper bounds pass through the Python max. -/
theorem pyMax_le {a b c : ℚ} (h1 : a ≤ c) (h2 : b ≤ c) : pyMax a b ≤ c := by
  unfold pyMax
  split
  · exact h1
  · exact h2

/-- The Python min is bounded by its left argument. -/
theorem pyMin_le_left (a b : ℚ) : pyMin a b ≤ a := by
  unfold pyMin
  split
  · exact le_refl a
  · exact le_of_not_le (by assumption)

/-- Counterexample to C3: the empty answer string returns 0.0, which is
below the claimed lower bound 0.1. -/
theorem C3_counterexample :
    estimateConfidence [] = 0 ∧ ¬ ((1 : ℚ)/10 ≤ estimateConfidence []) := by
  have h0 : estimateConfidence [] = 0 := rfl
  exact ⟨h0, by rw [h0]; norm_num⟩

/-- C3 (amended): for every non-empty answer string the confidence estimate
lies in [0.1, 1.0]; the empty string instead returns 0.0 (qa_system.py line
300). -/
theorem C3_amended_range (ans : List Char) (h : ans ≠ []) :
    1/10 ≤ estimateConfidence ans ∧ estimateConfidence ans ≤ 1 := by
  have he : ans.isEmpty = false := by
    cases ans with
    | nil => exact absurd rfl h
    | cons a t => rfl
  unfold estimateConfidence
  rw [he]
  simp only [Bool.false_eq_true, if_false]
  constructor
  · exact le_pyMax_left _ _
  · exact pyMax_le (by norm_num) (pyMin_le_left _ _)

/-- Witness for the amended C3 at the one-character answer "x". -/
theorem C3_amended_witness :
    1/10 ≤ estimateConfidence ("x".data) ∧ estimateConfidence ("x".data) ≤ 1 :=
  C3_amended_range ("x".data) (by decide)

/-- C10: with the extract-text option disabled, `process_document` always
returns a failed result (the read of the unbound `text_data` raises
`NameError` into the top-level handler) and no stage field is populated,
whatever the other flags and the validation outcome. -/
theorem C10_extract_text_disabled (env : Env) (filePath : List Char)
    (opts : AnalysisOptions) (h : opts.extract_text = false) :
    (enhancedProcessDocument env filePath (some opts)).status = "failed".data ∧
    (enhancedProcessDocument env filePath (some opts)).error.isSome = true ∧
    (enhancedProcessDocument env filePath (some opts)).text_extraction = none ∧
    (enhancedProcessDocument env filePath (some opts)).summary = none ∧
    (enhancedProcessDocument env filePath (some opts)).entities = none ∧
    (enhancedProcessDocument env filePath (some opts)).clauses = none ∧
    (enhancedProcessDocument env filePath (some opts)).clause_summary = none ∧
    (enhancedProcessDocument env filePath (some opts)).highlighted_text = none ∧
    (enhancedProcessDocument env filePath (some opts)).suggested_questions = none ∧
    (enhancedProcessDocument env filePath (some opts)).bullet_points = none ∧
    (enhancedProcessDocument env filePath (some opts)).risk_analysis = none := by
  unfold enhancedProcessDocument
  cases hv : env.validateOk <;> simp [hv, h, exceptResult]

/-- Witness for C10 at a concrete environment and option record. -/
theorem C10_witness :
    (enhancedProcessDocument envAB ("a.txt".data) (some optsNoExtract)).status = "failed".data ∧
    (enhancedProcessDocument envAB ("a.txt".data) (some optsNoExtract)).error.isSome = true ∧
    (enhancedProcessDocument envAB ("a.txt".data) (some optsNoExtract)).text_extraction = none ∧
    (enhancedProcessDocument envAB ("a.txt".data) (some optsNoExtract)).summary = none ∧
    (enhancedProcessDocument envAB ("a.txt".data) (some optsNoExtract)).entities = none ∧
    (enhancedProcessDocument envAB ("a.txt".data) (some optsNoExtract)).clauses = none ∧
    (enhancedProcessDocument envAB ("a.txt".data) (some optsNoExtract)).clause_summary = none ∧
    (enhancedProcessDocument envAB ("a.txt".data) (some optsNoExtract)).highlighted_text = none ∧
    (enhancedProcessDocument envAB ("a.txt".data) (some optsNoExtract)).suggested_questions = none ∧
    (enhancedProcessDocument envAB ("a.txt".data) (some optsNoExtract)).bullet_points = none ∧
    (enhancedProcessDocument envAB ("a.txt".data) (some optsNoExtract)).risk_analysis = none :=
  C10_extract_text_disabled envAB ("a.txt".data) optsNoExtract rfl

/-- C4: when validation passes, extraction is enabled and yields no text,
`process_document` returns early with status failed and the no-text error,
and no later stage field is populated. -/
theorem C4_no_text_fatal (env : Env) (filePath : List Char)
    (optsIn : Option AnalysisOptions)
    (h1 : env.validateOk = true)
    (h2 : (optsIn.getD defaultAnalysisOptions).extract_text = true)
    (h3 : env.extractData.text = []) :
    (enhancedProcessDocument env filePath optsIn).status = "failed".data ∧
    (enhancedProcessDocument env filePath optsIn).error = some noTextMsg ∧
    (enhancedProcessDocument env filePath optsIn).summary = none ∧
    (enhancedProcessDocument env filePath optsIn).entities = none ∧
    (enhancedProcessDocument env filePath optsIn).clauses = none ∧
    (enhancedProcessDocument env filePath optsIn).clause_summary = none ∧
    (enhancedProcessDocument env filePath optsIn).highlighted_text = none ∧
    (enhancedProcessDocument env filePath optsIn).suggested_questions = none ∧
    (enhancedProcessDocument env filePath optsIn).bullet_points = none ∧
    (enhancedProcessDocument env filePath optsIn).risk_analysis = none := by
  unfold enhancedProcessDocument
  simp [h1, h2, h3, baseResults]

/-- Witness for C4 at a concrete run whose extraction yields no text. -/
theorem C4_witness :
    (enhancedProcessDocument envNoText ("a.txt".data) none).status = "failed".data ∧
    (enhancedProcessDocument envNoText ("a.txt".data) none).error = some noTextMsg ∧
    (enhancedProcessDocument envNoText ("a.txt".data) none).summary = none ∧
    (enhancedProcessDocument envNoText ("a.txt".data) none).entities = none ∧
    (enhancedProcessDocument envNoText ("a.txt".data) none).clauses = none ∧
    (enhancedProcessDocument envNoText ("a.txt".data) none).clause_summary = none ∧
    (enhancedProcessDocument envNoText ("a.txt".data) none).highlighted_text = none ∧
    (enhancedProcessDocument envNoText ("a.txt".data) none).suggested_questions = none ∧
    (enhancedProcessDocument envNoText ("a.txt".data) none).bullet_points = none ∧
    (enhancedProcessDocument envNoText ("a.txt".data) none).risk_analysis = none :=
  C4_no_text_fatal envNoText ("a.txt".data) none rfl rfl rfl

/-- Counterexample to C2: on the strict-JSON path the clause type is not
validated — `rawA` yields a record with clause type "FOO", outside the closed
set — and on the fallback path the length check is not enforced — `rawB`
yields a record with empty clause text. -/
theorem C2_counterexample :
    ((parseClauseResponse loadsC2 rawA).map Clause.clause_type
        = [Json.str ("FOO".data)] ∧
      ("FOO".data ∈ clauseTypeKeys → False)) ∧
    (parseClauseResponse loadsC2 rawB).map Clause.clause_text = [[]] := by
  refine ⟨⟨rfl, ?_⟩, rfl⟩
  decide

/-- Every clause kept by the strict validation loop of
`_parse_clause_response` has stripped text longer than 20 characters. -/
theorem cleanClauses_length :
    ∀ (elems : List Json) (cs : List Clause), cleanClauses elems = some cs →
      ∀ r ∈ cs, r.clause_text.length > 20 := by
  intro elems
  induction elems with
  | nil =>
    intro cs h r hr
    unfold cleanClauses at h
    cases h
    cases hr
  | cons c rest ih =>
    intro cs h r hr
    unfold cleanClauses at h
    cases c with
    | obj kvs =>
      dsimp only [] at h
      cases h1 : jsonLookup kvs ("clause_type".data) with
      | none =>
        rw [h1] at h
        cases h2 : jsonLookup kvs ("clause_text".data) <;> rw [h2] at h <;>
          dsimp only [] at h <;>
          (cases h3 : cleanClauses rest <;> rw [h3] at h <;> cases h) <;>
          exact ih _ h3 r hr
      | some tval =>
        rw [h1] at h
        cases h2 : jsonLookup kvs ("clause_text".data) with
        | none =>
          rw [h2] at h
          dsimp only [] at h
          cases h3 : cleanClauses rest <;> rw [h3] at h <;> cases h
          exact ih _ h3 r hr
        | some tv =>
          rw [h2] at h
          cases tv with
          | str t =>
            dsimp only [] at h
            cases h3 : cleanClauses rest with
            | none => rw [h3] at h; cases h
            | some tail =>
              rw [h3] at h
              cases h
              by_cases hlen : (pyStrip t).length > 20
              · rw [if_pos hlen] at hr
                cases hr with
                | head => exact hlen
                | tail _ hmem => exact ih _ h3 r hmem
              · rw [if_neg hlen] at hr
                exact ih _ h3 r hr
          | null => dsimp only [] at h; cases h
          | bool b => dsimp only [] at h; cases h
          | num n => dsimp only [] at h; cases h
          | arr xs => dsimp only [] at h; cases h
          | obj o => dsimp only [] at h; cases h
    | null =>
      dsimp only [] at h
      cases h3 : cleanClauses rest <;> rw [h3] at h <;> cases h
      exact ih _ h3 r hr
    | bool b =>
      dsimp only [] at h
      cases h3 : cleanClauses rest <;> rw [h3] at h <;> cases h
      exact ih _ h3 r hr
    | num n =>
      dsimp only [] at h
      cases h3 : cleanClauses rest <;> rw [h3] at h <;> cases h
      exact ih _ h3 r hr
    | str s =>
      dsimp only [] at h
      cases h3 : cleanClauses rest <;> rw [h3] at h <;> cases h
      exact ih _ h3 r hr
    | arr xs =>
      dsimp only [] at h
      cases h3 : cleanClauses rest <;> rw [h3] at h <;> cases h
      exact ih _ h3 r hr

/-- A successful clause-type hit names a member of the closed category set. -/
theorem clauseTypeHit_mem {line ct : List Char} (h : clauseTypeHit line = some ct) :
    ct ∈ clauseTypeKeys := by
  unfold clauseTypeHit at h
  obtain ⟨a, ha, hfa⟩ := findSome?_some_mem _ clauseTypeKeys ct h
  by_cases hc : (containsL (pyLower line) (pyLower a) && containsL line [':']) = true
  · rw [if_pos hc] at hfa
    cases hfa
    exact ha
  · rw [if_neg hc] at hfa
    cases hfa

/-- The clause-type scan preserves the closed-set invariant. -/
theorem fallbackClauseNewState_inv (st : List Clause × Option Clause)
    (h : FallbackInv st) (line : List Char) :
    FallbackInv (fallbackClauseNewState st line) := by
  obtain ⟨acc, cur⟩ := st
  obtain ⟨hacc, hcur⟩ := h
  unfold fallbackClauseNewState
  cases hhit : clauseTypeHit line with
  | none => exact ⟨hacc, hcur⟩
  | some ct =>
    have hnewok : ClauseTypeOk (newClauseOf ct) := ⟨ct, rfl, clauseTypeHit_mem hhit⟩
    cases cur with
    | none =>
      refine ⟨hacc, fun c2 hc2 => ?_⟩
      cases hc2
      exact hnewok
    | some c =>
      refine ⟨?_, fun c2 hc2 => ?_⟩
      · intro r hr
        rcases List.mem_append.mp hr with h1 | h2
        · exact hacc r h1
        · rw [List.mem_singleton.mp h2]
          exact hcur c rfl
      · cases hc2
        exact hnewok

/-- The clause-text capture preserves the closed-set invariant (it only
rewrites the text of the current clause). -/
theorem fallbackClauseTextUpdate_inv (st2 : List Clause × Option Clause)
    (h : FallbackInv st2) (line : List Char) :
    FallbackInv (fallbackClauseTextUpdate st2 line) := by
  obtain ⟨acc, cur⟩ := st2
  obtain ⟨hacc, hcur⟩ := h
  cases cur with
  | none => exact ⟨hacc, fun c2 hc2 => Option.noConfusion hc2⟩
  | some c =>
    obtain ⟨t, ht, hmem⟩ := hcur c rfl
    have hred : fallbackClauseTextUpdate (acc, some c) line =
        if line ≠ [] ∧ ¬ (clauseTextKeywords.any fun kw => containsL (pyLower line) kw) then
          (if line.length > 20 then (acc, some { c with clause_text := line })
           else (acc, some c))
        else (acc, some c) := rfl
    rw [hred]
    split
    · split
      · refine ⟨hacc, fun c2 hc2 => ?_⟩
        cases hc2
        exact ⟨t, ht, hmem⟩
      · refine ⟨hacc, fun c2 hc2 => ?_⟩
        cases hc2
        exact ⟨t, ht, hmem⟩
    · refine ⟨hacc, fun c2 hc2 => ?_⟩
      cases hc2
      exact ⟨t, ht, hmem⟩

/-- One fallback step preserves the closed-set invariant. -/
theorem fallbackClauseStep_inv (st : List Clause × Option Clause)
    (hst : FallbackInv st) (line : List Char) :
    FallbackInv (fallbackClauseStep st line) :=
  fallbackClauseTextUpdate_inv _ (fallbackClauseNewState_inv st hst _) _

/-- The fallback fold preserves the closed-set invariant. -/
theorem fallbackFold_inv :
    ∀ (lines : List (List Char)) (st : List Clause × Option Clause),
      FallbackInv st → FallbackInv (lines.foldl fallbackClauseStep st) := by
  intro lines
  induction lines with
  | nil => intro st h; exact h
  | cons l rest ih =>
    intro st h
    exact ih _ (fallbackClauseStep_inv st h l)

/-- Every record produced by `_fallback_clause_parsing` carries a clause
type from the closed category set. -/
theorem fallbackClauseParsing_types (raw : List Char) :
    ∀ r ∈ fallbackClauseParsing raw, ClauseTypeOk r := by
  intro r hr
  unfold fallbackClauseParsing at hr
  dsimp only [] at hr
  have hinv := fallbackFold_inv (splitOnChar '\n' raw) ([], none)
    ⟨fun r2 hr2 => absurd hr2 (List.not_mem_nil r2),
     fun c hc => Option.noConfusion hc⟩
  obtain ⟨hacc, hcur⟩ := hinv
  cases hfin : ((splitOnChar '\n' raw).foldl fallbackClauseStep ([], none)).2 with
  | none =>
    rw [hfin] at hr
    exact hacc r hr
  | some c =>
    rw [hfin] at hr
    dsimp only [] at hr
    rcases List.mem_append.mp hr with hr1 | hr2
    · exact hacc r hr1
    · rw [List.mem_singleton.mp hr2]
      exact hcur c hfin

/-- C2 (amended): every record kept on the strict-JSON path has clause text
longer than 20 characters (its clause type is not validated), and every
record produced by the heuristic fallback has a clause type from the closed
category set (its clause text may be 20 characters or shorter, even empty). -/
theorem C2_amended (loads : PyLoads) (raw : List Char) :
    (∀ r ∈ strictUsable loads raw, r.clause_text.length > 20) ∧
    (∀ r ∈ fallbackClauseParsing raw, ClauseTypeOk r) := by
  constructor
  · intro r hr
    unfold strictUsable at hr
    cases hl : loads (selectedClauseJsonInput raw) with
    | none =>
      rw [hl] at hr
      cases hr
    | some j =>
      rw [hl] at hr
      dsimp only [] at hr
      cases hs : strictClean j with
      | none =>
        rw [hs] at hr
        cases hr
      | some cs =>
        rw [hs] at hr
        unfold strictClean at hs
        cases hi : pyIterElems j with
        | none => rw [hi] at hs; cases hs
        | some elems =>
          rw [hi] at hs
          exact cleanClauses_length elems cs hs r hr
  · exact fallbackClauseParsing_types raw

/-- Witness for the amended C2: the fallback record parsed from `rawB`
carries the closed-set type TERMINATION. -/
theorem C2_amended_witness : ClauseTypeOk (newClauseOf ("TERMINATION".data)) :=
  (C2_amended loadsC2 rawB).2 (newClauseOf ("TERMINATION".data))
    (show _ ∈ [newClauseOf ("TERMINATION".data)] from List.mem_singleton_self _)

/-- The head of a `dropWhile pySpace` result is not a space. -/
theorem head?_dropWhile_not (l : List Char) :
    ∀ c, (l.dropWhile pySpace).head? = some c → pySpace c = false := by
  induction l with
  | nil => intro c h; cases h
  | cons a t ih =>
    intro c h
    rw [List.dropWhile_cons] at h
    by_cases ha : pySpace a = true
    · rw [if_pos ha] at h
      exact ih c h
    · rw [if_neg ha] at h
      cases h
      exact Bool.eq_false_iff.mpr ha

/-- `dropWhile` from the front either empties the list or keeps its last
element. -/
theorem getLast?_dropWhile (l : List Char) :
    l.dropWhile pySpace = [] ∨ (l.dropWhile pySpace).getLast? = l.getLast? := by
  induction l with
  | nil => exact Or.inl rfl
  | cons a t ih =>
    rw [List.dropWhile_cons]
    by_cases ha : pySpace a = true
    · rw [if_pos ha]
      rcases ih with h1 | h2
      · exact Or.inl h1
      · cases t with
        | nil => exact Or.inl rfl
        | cons b t2 =>
          right
          rw [h2, List.getLast?_cons_cons]
    · rw [if_neg ha]
      exact Or.inr rfl

/-- The result of Python `str.strip()` has no surrounding whitespace. -/
theorem isTrimmed_pyStrip (l : List Char) : isTrimmed (pyStrip l) = true := by
  unfold pyStrip isTrimmed
  rw [List.head?_reverse, List.getLast?_reverse]
  have hhead : ∀ c, (((l.dropWhile pySpace).reverse.dropWhile pySpace)).head? = some c →
      pySpace c = false := head?_dropWhile_not _
  have hlast : ((l.dropWhile pySpace).reverse.dropWhile pySpace) = [] ∨
      ((l.dropWhile pySpace).reverse.dropWhile pySpace).getLast? =
        (l.dropWhile pySpace).reverse.getLast? := getLast?_dropWhile _
  rw [Bool.and_eq_true]
  constructor
  · rcases hlast with h1 | h2
    · rw [h1]
      rfl
    · rw [h2, List.getLast?_reverse]
      cases hh : (l.dropWhile pySpace).head? with
      | none => rfl
      | some c =>
        have := head?_dropWhile_not l c hh
        show (!pySpace c) = true
        rw [this]
        rfl
  · cases hh : ((l.dropWhile pySpace).reverse.dropWhile pySpace).head? with
    | none => rfl
    | some c =>
      have := hhead c hh
      show (!pySpace c) = true
      rw [this]
      rfl

/-- Every entity kept by the strict cleaning comprehension is trimmed and
longer than one character. -/
theorem cleanEntityList_ok :
    ∀ (lst : List Json) (cleaned : List (List Char)),
      cleanEntityList lst = some cleaned → EntityListOk cleaned := by
  intro lst
  induction lst with
  | nil =>
    intro cleaned h e he
    unfold cleanEntityList at h
    cases h
    cases he
  | cons x rest ih =>
    intro cleaned h e he
    unfold cleanEntityList at h
    by_cases hx : pyTruthy x = true
    · rw [if_pos hx] at h
      cases x with
      | str s =>
        dsimp only [] at h
        cases h3 : cleanEntityList rest with
        | none => rw [h3] at h; cases h
        | some tail =>
          rw [h3] at h
          cases h
          by_cases hlen : (pyStrip s).length > 1
          · rw [if_pos hlen] at he
            cases he with
            | head => exact ⟨hlen, isTrimmed_pyStrip s⟩
            | tail _ hmem => exact ih _ h3 e hmem
          · rw [if_neg hlen] at he
            exact ih _ h3 e he
      | null => dsimp only [] at h; cases h
      | bool b => dsimp only [] at h; cases h
      | num n => dsimp only [] at h; cases h
      | arr xs => dsimp only [] at h; cases h
      | obj o => dsimp only [] at h; cases h
    · rw [if_neg hx] at h
      cases h3 : cleanEntityList rest with
      | none => rw [h3] at h; cases h
      | some tail =>
        rw [h3] at h
        cases h
        exact ih _ h3 e he

/-- Every per-category list kept by the strict entity validation loop is
deduplicated, capped at 20 and built from trimmed strings longer than one
character. -/
theorem cleanEntities_ok :
    ∀ (kvs : List (List Char × Json)) (res : List (List Char × List (List Char))),
      cleanEntities kvs = some res →
      ∀ p ∈ res, p.2.Nodup ∧ p.2.length ≤ 20 ∧ EntityListOk p.2 := by
  intro kvs
  induction kvs with
  | nil =>
    intro res h p hp
    unfold cleanEntities at h
    cases h
    cases hp
  | cons kv rest ih =>
    intro res h p hp
    obtain ⟨cat, v⟩ := kv
    unfold cleanEntities at h
    cases v with
    | arr lst =>
      dsimp only [] at h
      cases h1 : cleanEntityList lst with
      | none => rw [h1] at h; cases h
      | some cleaned =>
        rw [h1] at h
        dsimp only [] at h
        cases h3 : cleanEntities rest with
        | none => rw [h3] at h; cases h
        | some tail =>
          rw [h3] at h
          dsimp only [] at h
          cases h
          have hkept : ∀ q ∈ tail, q.2.Nodup ∧ q.2.length ≤ 20 ∧ EntityListOk q.2 :=
            fun q hq => ih tail h3 q hq
          by_cases hne : (pySetList cleaned).take 20 ≠ []
          · rw [if_pos hne] at hp
            cases hp with
            | head =>
              refine ⟨?_, ?_, ?_⟩
              · exact List.Nodup.sublist (List.take_sublist _ _) (List.nodup_dedup cleaned)
              · rw [List.length_take]
                exact min_le_left _ _
              · intro e he
                have he2 : e ∈ pySetList cleaned := List.take_subset _ _ he
                have he3 : e ∈ cleaned := List.mem_dedup.mp he2
                exact cleanEntityList_ok lst cleaned h1 e he3
            | tail _ hmem => exact hkept p hmem
          · rw [if_neg hne] at hp
            exact hkept p hp
    | null =>
      dsimp only [] at h
      cases h3 : cleanEntities rest <;> rw [h3] at h <;> cases h
      exact ih _ h3 p hp
    | bool b =>
      dsimp only [] at h
      cases h3 : cleanEntities rest <;> rw [h3] at h <;> cases h
      exact ih _ h3 p hp
    | num n =>
      dsimp only [] at h
      cases h3 : cleanEntities rest <;> rw [h3] at h <;> cases h
      exact ih _ h3 p hp
    | str s =>
      dsimp only [] at h
      cases h3 : cleanEntities rest <;> rw [h3] at h <;> cases h
      exact ih _ h3 p hp
    | obj o =>
      dsimp only [] at h
      cases h3 : cleanEntities rest <;> rw [h3] at h <;> cases h
      exact ih _ h3 p hp

/-- `assocSet` preserves a predicate on stored values. -/
theorem assocSet_forall {α : Type} (Q : α → Prop) :
    ∀ (l : List (List Char × α)) (k : List Char) (v : α),
      (∀ p ∈ l, Q p.2) → Q v → ∀ p ∈ assocSet l k v, Q p.2 := by
  intro l
  induction l with
  | nil =>
    intro k v hl hv p hp
    unfold assocSet at hp
    cases hp with
    | head => exact hv
    | tail _ hm => cases hm
  | cons kv t ih =>
    intro k v hl hv p hp
    obtain ⟨k0, v0⟩ := kv
    unfold assocSet at hp
    by_cases hk : k0 = k
    · rw [if_pos hk] at hp
      cases hp with
      | head => exact hv
      | tail _ hm => exact hl _ (List.mem_cons_of_mem _ hm)
    · rw [if_neg hk] at hp
      cases hp with
      | head => exact hl _ (List.mem_cons_self _ _)
      | tail _ hm => exact ih k v (fun q hq => hl q (List.mem_cons_of_mem _ hq)) hv p hm

/-- Appending a long trimmed entity preserves the per-category invariant. -/
theorem assocListAppend_inv :
    ∀ (l : List (List Char × List (List Char))) (k e : List Char),
      (∀ p ∈ l, EntityListOk p.2) → e.length > 1 → isTrimmed e = true →
      ∀ p ∈ assocListAppend l k e, EntityListOk p.2 := by
  intro l
  induction l with
  | nil =>
    intro k e hl he ht p hp
    cases hp
  | cons kv t ih =>
    intro k e hl he ht p hp
    obtain ⟨k0, v0⟩ := kv
    unfold assocListAppend at hp
    by_cases hk : k0 = k
    · rw [if_pos hk] at hp
      cases hp with
      | head =>
        intro x hx
        rcases List.mem_append.mp hx with h1 | h2
        · exact hl (k0, v0) (List.mem_cons_self _ _) x h1
        · rw [List.mem_singleton.mp h2]
          exact ⟨he, ht⟩
      | tail _ hm => exact hl _ (List.mem_cons_of_mem _ hm)
    · rw [if_neg hk] at hp
      cases hp with
      | head => exact hl _ (List.mem_cons_self _ _)
      | tail _ hm => exact ih k e (fun q hq => hl q (List.mem_cons_of_mem _ hq)) he ht p hm

/-- The entity category scan preserves the per-category invariant. -/
theorem fallbackEntityNewState_inv
    (st : List (List Char × List (List Char)) × Option (List Char))
    (h : ∀ p ∈ st.1, EntityListOk p.2) (line : List Char) :
    ∀ p ∈ (fallbackEntityNewState st line).1, EntityListOk p.2 := by
  unfold fallbackEntityNewState
  cases hhit : entityCategoryHit line with
  | none => exact h
  | some cat =>
    exact assocSet_forall EntityListOk st.1 cat [] h
      (fun x hx => absurd hx (List.not_mem_nil x))

/-- The entity capture step preserves the per-category invariant. -/
theorem fallbackEntityCapture_inv
    (st2 : List (List Char × List (List Char)) × Option (List Char))
    (h : ∀ p ∈ st2.1, EntityListOk p.2) (line : List Char) :
    ∀ p ∈ (fallbackEntityCapture st2 line).1, EntityListOk p.2 := by
  obtain ⟨ents, cur⟩ := st2
  cases cur with
  | none => exact h
  | some cat =>
    have hred : fallbackEntityCapture (ents, some cat) line =
        if startsWithL ['-'] line || startsWithL ['*'] line ||
            numberedPrefixes.any (fun p => startsWithL p line) then
          (if pyStrip (lstripSet ("-*0123456789. ".data) line) ≠ [] ∧
              (pyStrip (lstripSet ("-*0123456789. ".data) line)).length > 1 then
            (assocListAppend ents cat (pyStrip (lstripSet ("-*0123456789. ".data) line)),
              some cat)
          else (ents, some cat))
        else (ents, some cat) := rfl
    rw [hred]
    split
    · split
      · next hcond =>
          exact assocListAppend_inv ents cat _ h hcond.2 (isTrimmed_pyStrip _)
      · exact h
    · exact h

/-- One fallback entity step preserves the per-category invariant. -/
theorem fallbackEntityStep_inv
    (st : List (List Char × List (List Char)) × Option (List Char))
    (h : ∀ p ∈ st.1, EntityListOk p.2) (rawLine : List Char) :
    ∀ p ∈ (fallbackEntityStep st rawLine).1, EntityListOk p.2 :=
  fallbackEntityCapture_inv _ (fallbackEntityNewState_inv st h _) _

/-- The fallback entity fold preserves the per-category invariant. -/
theorem fallbackEntityFold_inv :
    ∀ (lines : List (List Char))
      (st : List (List Char × List (List Char)) × Option (List Char)),
      (∀ p ∈ st.1, EntityListOk p.2) →
      ∀ p ∈ (lines.foldl fallbackEntityStep st).1, EntityListOk p.2 := by
  intro lines
  induction lines with
  | nil => intro st h; exact h
  | cons l rest ih =>
    intro st h
    exact ih _ (fallbackEntityStep_inv st h l)

/-- Every entity produced by `_fallback_entity_parsing` is trimmed and longer
than one character. -/
theorem fallbackEntityParsing_ok (raw : List Char) :
    ∀ p ∈ fallbackEntityParsing raw, EntityListOk p.2 := by
  unfold fallbackEntityParsing
  exact fallbackEntityFold_inv (splitOnChar '\n' raw) ([], none)
    (fun p hp => absurd hp (List.not_mem_nil p))

/-- Counterexample to C8: the heuristic fallback neither deduplicates nor
caps a category list — `rawE8` lists "John" twice under PERSONS. -/
theorem C8_counterexample :
    parseEntityResponse loadsNone rawE8 =
      [("PERSONS".data, ["John".data, "John".data])] ∧
    ¬ (["John".data, "John".data]).Nodup := by
  constructor
  · rfl
  · decide

/-- C8 (amended): on the strict-JSON path every per-category list is
deduplicated, capped at 20 and made of trimmed strings longer than one
character; on the heuristic fallback path the entries are still trimmed and
longer than one character, but duplicates are kept and no cap applies. -/
theorem C8_amended (loads : PyLoads) (raw : List Char) :
    (∀ j, loads (selectedEntityJsonInput raw) = some j →
      ∀ p ∈ parseEntityResponse loads raw,
        p.2.Nodup ∧ p.2.length ≤ 20 ∧ EntityListOk p.2) ∧
    (∀ p ∈ fallbackEntityParsing raw, EntityListOk p.2) := by
  constructor
  · intro j hj p hp
    unfold parseEntityResponse at hp
    rw [hj] at hp
    dsimp only [] at hp
    cases hs : strictEntities j with
    | none => rw [hs] at hp; cases hp
    | some res =>
      rw [hs] at hp
      unfold strictEntities at hs
      cases j with
      | obj kvs => exact cleanEntities_ok kvs res hs p hp
      | null => cases hs
      | bool b => cases hs
      | num n => cases hs
      | str s => cases hs
      | arr xs => cases hs
  · exact fallbackEntityParsing_ok raw

/-- Witness for the amended C8: the duplicated fallback entities from `rawE8`
are each trimmed and longer than one character. -/
theorem C8_amended_witness : EntityListOk (["John".data, "John".data]) :=
  (C8_amended loadsNone rawE8).2 ("PERSONS".data, ["John".data, "John".data])
    (show _ ∈ [("PERSONS".data, ["John".data, "John".data])] from
      List.mem_singleton_self _)

/-- A successful `startswith` decomposes the haystack. -/
theorem startsWithL_append :
    ∀ (needle hay : List Char), startsWithL needle hay = true →
      hay = needle ++ hay.drop needle.length := by
  intro needle
  induction needle with
  | nil => intro hay h; simp
  | cons n ns ih =>
    intro hay h
    cases hay with
    | nil => cases h
    | cons a t =>
      unfold startsWithL at h
      rw [Bool.and_eq_true] at h
      obtain ⟨h1, h2⟩ := h
      have ha : n = a := of_decide_eq_true h1
      subst ha
      simp only [List.cons_append, List.length_cons, List.drop_succ_cons]
      exact congrArg (List.cons n) (ih t h2)

/-- `replaceFirst` replaces exactly the first occurrence: the haystack splits
as `pre ++ needle ++ suf` and the result is `pre ++ repl ++ suf`. -/
theorem replaceFirst_decomp (needle repl : List Char) (hne : needle ≠ []) :
    ∀ hay : List Char, containsL hay needle = true →
      ∃ pre suf, hay = pre ++ needle ++ suf ∧
        replaceFirst hay needle repl = pre ++ repl ++ suf := by
  intro hay
  induction hay with
  | nil =>
    intro h
    unfold containsL at h
    cases hn : needle with
    | nil => exact absurd hn hne
    | cons n ns => rw [hn] at h; cases h
  | cons a t ih =>
    intro h
    unfold containsL at h
    rw [Bool.or_eq_true] at h
    by_cases hs : startsWithL needle (a :: t) = true
    · refine ⟨[], (a :: t).drop needle.length, ?_, ?_⟩
      · simpa using startsWithL_append needle (a :: t) hs
      · unfold replaceFirst
        rw [if_pos hs]
        simp
    · have hc : containsL t needle = true := by
        rcases h with h1 | h2
        · exact absurd h1 hs
        · exact h2
      obtain ⟨pre, suf, he, hr⟩ := ih hc
      refine ⟨a :: pre, suf, ?_, ?_⟩
      · rw [he]
        simp
      · unfold replaceFirst
        rw [if_neg hs, hr]
        simp

/-- C6 (amended): each clause processed by the highlighting loop changes the
working copy by at most one replacement — either the clause text is absent
(or empty) and the copy is unchanged, or exactly its first occurrence in the
current working copy is rewrapped.  The span wrapped is verbatim in the
working copy at that moment, though not necessarily in the original document,
since earlier annotations insert markup. -/
theorem C6_amended (ht : List Char) (c : Clause) (ht2 : List Char)
    (h : highlightStep ht c = some ht2) :
    ht2 = ht ∨ ∃ pre suf, ht = pre ++ pyStrip c.clause_text ++ suf ∧
      ht2 = pre ++ highlightSpan c (pyStrip c.clause_text) ++ suf := by
  unfold highlightStep at h
  by_cases hcond : pyStrip c.clause_text ≠ [] ∧ containsL ht (pyStrip c.clause_text) = true
  · rw [if_pos hcond] at h
    obtain ⟨pre, suf, he, hr⟩ := replaceFirst_decomp (pyStrip c.clause_text)
      (highlightSpan c (pyStrip c.clause_text)) hcond.1 ht hcond.2
    right
    refine ⟨pre, suf, he, ?_⟩
    cases hct : c.clause_type with
    | arr xs => rw [hct] at h; cases h
    | obj o => rw [hct] at h; cases h
    | null =>
      rw [hct] at h
      dsimp only [] at h
      cases h
      exact hr
    | bool b =>
      rw [hct] at h
      dsimp only [] at h
      cases h
      exact hr
    | num n =>
      rw [hct] at h
      dsimp only [] at h
      cases h
      exact hr
    | str s =>
      rw [hct] at h
      dsimp only [] at h
      cases h
      exact hr
  · rw [if_neg hcond] at h
    cases h
    exact Or.inl rfl

/-- Witness for the amended C6: highlighting `c1C6` in `docC6` performs one
replacement of its text. -/
theorem C6_amended_witness :
    c6Step1 = docC6 ∨ ∃ pre suf, docC6 = pre ++ pyStrip c1C6.clause_text ++ suf ∧
      c6Step1 = pre ++ highlightSpan c1C6 (pyStrip c1C6.clause_text) ++ suf :=
  C6_amended docC6 c1C6 c6Step1 (by decide)

/-- Counterexample to C6: after annotating `c1C6`, the clause text "span" of
`c2C6` matches inside the inserted markup, so its annotation wraps a span
that is absent from the input document. -/
theorem C6_counterexample :
    containsL (highlightClausesInText docC6 [c1C6, c2C6])
      (highlightSpan c2C6 ("span".data)) = true ∧
    containsL docC6 (pyStrip c2C6.clause_text) = false := by
  constructor
  · decide
  · decide

/-- Field projections commute with `if` on results (used to evaluate the
stage chain one projection at a time). -/
theorem ite_status (c : Prop) [Decidable c] (a b : Results) :
    (if c then a else b).status = if c then a.status else b.status := by
  split <;> rfl

/-- Projection of `error` through `if`. -/
theorem ite_error (c : Prop) [Decidable c] (a b : Results) :
    (if c then a else b).error = if c then a.error else b.error := by
  split <;> rfl

/-- Projection of `text_extraction` through `if`. -/
theorem ite_text_extraction (c : Prop) [Decidable c] (a b : Results) :
    (if c then a else b).text_extraction =
      if c then a.text_extraction else b.text_extraction := by
  split <;> rfl

/-- Projection of `summary` through `if`. -/
theorem ite_summary (c : Prop) [Decidable c] (a b : Results) :
    (if c then a else b).summary = if c then a.summary else b.summary := by
  split <;> rfl

/-- Projection of `entities` through `if`. -/
theorem ite_entities (c : Prop) [Decidable c] (a b : Results) :
    (if c then a else b).entities = if c then a.entities else b.entities := by
  split <;> rfl

/-- Projection of `clauses` through `if`. -/
theorem ite_clauses (c : Prop) [Decidable c] (a b : Results) :
    (if c then a else b).clauses = if c then a.clauses else b.clauses := by
  split <;> rfl

/-- Projection of `highlighted_text` through `if`. -/
theorem ite_highlighted_text (c : Prop) [Decidable c] (a b : Results) :
    (if c then a else b).highlighted_text =
      if c then a.highlighted_text else b.highlighted_text := by
  split <;> rfl

/-- Projection of `clause_summary` through `if`. -/
theorem ite_clause_summary (c : Prop) [Decidable c] (a b : Results) :
    (if c then a else b).clause_summary =
      if c then a.clause_summary else b.clause_summary := by
  split <;> rfl

/-- Projection of `suggested_questions` through `if`. -/
theorem ite_suggested_questions (c : Prop) [Decidable c] (a b : Results) :
    (if c then a else b).suggested_questions =
      if c then a.suggested_questions else b.suggested_questions := by
  split <;> rfl

/-- Projection of `qa_ready_text` through `if`. -/
theorem ite_qa_ready_text (c : Prop) [Decidable c] (a b : Results) :
    (if c then a else b).qa_ready_text =
      if c then a.qa_ready_text else b.qa_ready_text := by
  split <;> rfl

/-- Projection of `bullet_points` through `if`. -/
theorem ite_bullet_points (c : Prop) [Decidable c] (a b : Results) :
    (if c then a else b).bullet_points =
      if c then a.bullet_points else b.bullet_points := by
  split <;> rfl

/-- Projection of `risk_analysis` through `if`. -/
theorem ite_risk_analysis (c : Prop) [Decidable c] (a b : Results) :
    (if c then a else b).risk_analysis =
      if c then a.risk_analysis else b.risk_analysis := by
  split <;> rfl

/-- Projection of `relationships` through `if`. -/
theorem ite_relationships (c : Prop) [Decidable c] (a b : Results) :
    (if c then a else b).relationships =
      if c then a.relationships else b.relationships := by
  split <;> rfl

/-- C5: when validation passes and extraction yields non-empty text, the
result status is always `completed`; a stage whose external model call raised
records that component's except-branch default payload in its field; and
every enabled stage populates its field regardless of other stages'
failures. -/
theorem C5_stage_failures_nonfatal (env : Env) (filePath : List Char)
    (optsIn : Option AnalysisOptions)
    (h1 : env.validateOk = true)
    (h2 : (optsIn.getD defaultAnalysisOptions).extract_text = true)
    (h3 : env.extractData.text ≠ []) :
    (enhancedProcessDocument env filePath optsIn).status = "completed".data ∧
    ((optsIn.getD defaultAnalysisOptions).generate_summary = true → env.summaryResp = none →
      (enhancedProcessDocument env filePath optsIn).summary =
        some (summaryErrorData env.extractData.text
          (optsIn.getD defaultAnalysisOptions).summary_type)) ∧
    ((optsIn.getD defaultAnalysisOptions).extract_entities = true → env.entityResp = none →
      (enhancedProcessDocument env filePath optsIn).entities =
        some (entityErrorData (optsIn.getD defaultAnalysisOptions).entity_extraction_type
          env.extractData.text.length)) ∧
    ((optsIn.getD defaultAnalysisOptions).extract_clauses = true → env.clauseResp = none →
      (enhancedProcessDocument env filePath optsIn).clauses =
        some (clauseErrorData
          ((optsIn.getD defaultAnalysisOptions).clause_types.getD clauseTypeKeys)
          env.extractData.text.length)) ∧
    ((optsIn.getD defaultAnalysisOptions).generate_qa_suggestions = true → env.qaResp = none →
      (enhancedProcessDocument env filePath optsIn).suggested_questions =
        some defaultQuestions) ∧
    ((optsIn.getD defaultAnalysisOptions).generate_bullet_points = true → env.bulletResp = none →
      (enhancedProcessDocument env filePath optsIn).bullet_points = some []) ∧
    ((optsIn.getD defaultAnalysisOptions).analyze_risks = true → env.riskResp = none →
      (enhancedProcessDocument env filePath optsIn).risk_analysis = some emptyRiskData) ∧
    ((optsIn.getD defaultAnalysisOptions).generate_summary = true →
      (enhancedProcessDocument env filePath optsIn).summary.isSome = true) ∧
    ((optsIn.getD defaultAnalysisOptions).extract_entities = true →
      (enhancedProcessDocument env filePath optsIn).entities.isSome = true) ∧
    ((optsIn.getD defaultAnalysisOptions).extract_clauses = true →
      (enhancedProcessDocument env filePath optsIn).clauses.isSome = true) ∧
    ((optsIn.getD defaultAnalysisOptions).generate_qa_suggestions = true →
      (enhancedProcessDocument env filePath optsIn).suggested_questions.isSome = true ∧
      (enhancedProcessDocument env filePath optsIn).qa_ready_text =
        some (env.extractData.text.take 10000)) ∧
    ((optsIn.getD defaultAnalysisOptions).generate_bullet_points = true →
      (enhancedProcessDocument env filePath optsIn).bullet_points.isSome = true) ∧
    ((optsIn.getD defaultAnalysisOptions).analyze_risks = true →
      (enhancedProcessDocument env filePath optsIn).risk_analysis.isSome = true) := by
  have he : env.extractData.text.isEmpty = false := by
    cases henv : env.extractData.text with
    | nil => exact absurd henv h3
    | cons a t => rfl
  refine ⟨?_, ?_, ?_, ?_, ?_, ?_, ?_, ?_, ?_, ?_, ?_, ?_, ?_⟩
  · simp only [enhancedProcessDocument, h1, h2, he, Bool.not_true, Bool.false_eq_true,
      if_false, if_true, ite_self, ite_status, ite_error, ite_summary, ite_entities,
      ite_clauses, ite_highlighted_text, ite_clause_summary, ite_suggested_questions,
      ite_qa_ready_text, ite_bullet_points, ite_risk_analysis]
  · intro hf hr
    simp only [enhancedProcessDocument, h1, h2, he, hf, hr, summarizeDocument,
      Bool.not_true, Bool.false_eq_true, if_false, if_true, ite_self,
      ite_status, ite_error, ite_summary, ite_entities, ite_clauses,
      ite_highlighted_text, ite_clause_summary, ite_suggested_questions,
      ite_qa_ready_text, ite_bullet_points, ite_risk_analysis]
  · intro hf hr
    simp only [enhancedProcessDocument, h1, h2, he, hf, hr, extractEntities,
      Bool.not_true, Bool.false_eq_true, if_false, if_true, ite_self,
      ite_status, ite_error, ite_summary, ite_entities, ite_clauses,
      ite_highlighted_text, ite_clause_summary, ite_suggested_questions,
      ite_qa_ready_text, ite_bullet_points, ite_risk_analysis]
  · intro hf hr
    simp only [enhancedProcessDocument, h1, h2, he, hf, hr, extractClauses,
      clauseErrorData, List.isEmpty_nil, Bool.not_false, Bool.not_true,
      Bool.false_eq_true, if_false, if_true, ite_self,
      ite_status, ite_error, ite_summary, ite_entities, ite_clauses,
      ite_highlighted_text, ite_clause_summary, ite_suggested_questions,
      ite_qa_ready_text, ite_bullet_points, ite_risk_analysis]
  · intro hf hr
    simp only [enhancedProcessDocument, h1, h2, he, hf, hr, getSuggestedQuestions,
      Bool.not_true, Bool.false_eq_true, if_false, if_true, ite_self,
      ite_status, ite_error, ite_summary, ite_entities, ite_clauses,
      ite_highlighted_text, ite_clause_summary, ite_suggested_questions,
      ite_qa_ready_text, ite_bullet_points, ite_risk_analysis]
  · intro hf hr
    simp only [enhancedProcessDocument, h1, h2, he, hf, hr, generateBulletPoints,
      Bool.not_true, Bool.false_eq_true, if_false, if_true, ite_self,
      ite_status, ite_error, ite_summary, ite_entities, ite_clauses,
      ite_highlighted_text, ite_clause_summary, ite_suggested_questions,
      ite_qa_ready_text, ite_bullet_points, ite_risk_analysis]
  · intro hf hr
    simp only [enhancedProcessDocument, h1, h2, he, hf, hr, analyzeLegalRisks,
      Bool.not_true, Bool.false_eq_true, if_false, if_true, ite_self,
      ite_status, ite_error, ite_summary, ite_entities, ite_clauses,
      ite_highlighted_text, ite_clause_summary, ite_suggested_questions,
      ite_qa_ready_text, ite_bullet_points, ite_risk_analysis]
  · intro hf
    simp only [enhancedProcessDocument, h1, h2, he, hf, Bool.not_true,
      Bool.false_eq_true, if_false, if_true, ite_self, Option.isSome_some,
      ite_status, ite_error, ite_summary, ite_entities, ite_clauses,
      ite_highlighted_text, ite_clause_summary, ite_suggested_questions,
      ite_qa_ready_text, ite_bullet_points, ite_risk_analysis]
  · intro hf
    simp only [enhancedProcessDocument, h1, h2, he, hf, Bool.not_true,
      Bool.false_eq_true, if_false, if_true, ite_self, Option.isSome_some,
      ite_status, ite_error, ite_summary, ite_entities, ite_clauses,
      ite_highlighted_text, ite_clause_summary, ite_suggested_questions,
      ite_qa_ready_text, ite_bullet_points, ite_risk_analysis]
  · intro hf
    simp only [enhancedProcessDocument, h1, h2, he, hf, Bool.not_true,
      Bool.false_eq_true, if_false, if_true, ite_self, Option.isSome_some,
      ite_status, ite_error, ite_summary, ite_entities, ite_clauses,
      ite_highlighted_text, ite_clause_summary, ite_suggested_questions,
      ite_qa_ready_text, ite_bullet_points, ite_risk_analysis]
  · intro hf
    simp only [enhancedProcessDocument, h1, h2, he, hf, Bool.not_true,
      Bool.false_eq_true, if_false, if_true, ite_self, Option.isSome_some, and_self,
      ite_status, ite_error, ite_summary, ite_entities, ite_clauses,
      ite_highlighted_text, ite_clause_summary, ite_suggested_questions,
      ite_qa_ready_text, ite_bullet_points, ite_risk_analysis]
  · intro hf
    simp only [enhancedProcessDocument, h1, h2, he, hf, Bool.not_true,
      Bool.false_eq_true, if_false, if_true, ite_self, Option.isSome_some,
      ite_status, ite_error, ite_summary, ite_entities, ite_clauses,
      ite_highlighted_text, ite_clause_summary, ite_suggested_questions,
      ite_qa_ready_text, ite_bullet_points, ite_risk_analysis]
  · intro hf
    simp only [enhancedProcessDocument, h1, h2, he, hf, Bool.not_true,
      Bool.false_eq_true, if_false, if_true, ite_self, Option.isSome_some,
      ite_status, ite_error, ite_summary, ite_entities, ite_clauses,
      ite_highlighted_text, ite_clause_summary, ite_suggested_questions,
      ite_qa_ready_text, ite_bullet_points, ite_risk_analysis]

/-- Witness for C5: with non-empty text and every model call raising, the run
completes with each failed stage holding its default payload. -/
theorem C5_witness :
    (enhancedProcessDocument envAB ("a.txt".data) none).status = "completed".data ∧
    (enhancedProcessDocument envAB ("a.txt".data) none).summary =
      some (summaryErrorData ("ab".data) ("comprehensive".data)) ∧
    (enhancedProcessDocument envAB ("a.txt".data) none).entities =
      some (entityErrorData ("comprehensive".data) 2) ∧
    (enhancedProcessDocument envAB ("a.txt".data) none).clauses =
      some (clauseErrorData clauseTypeKeys 2) ∧
    (enhancedProcessDocument envAB ("a.txt".data) none).suggested_questions =
      some defaultQuestions ∧
    (enhancedProcessDocument envAB ("a.txt".data) none).bullet_points = some [] ∧
    (enhancedProcessDocument envAB ("a.txt".data) none).risk_analysis =
      some emptyRiskData :=
  ⟨(C5_stage_failures_nonfatal envAB ("a.txt".data) none rfl rfl (by decide)).1,
   (C5_stage_failures_nonfatal envAB ("a.txt".data) none rfl rfl (by decide)).2.1 rfl rfl,
   (C5_stage_failures_nonfatal envAB ("a.txt".data) none rfl rfl (by decide)).2.2.1 rfl rfl,
   (C5_stage_failures_nonfatal envAB ("a.txt".data) none rfl rfl (by decide)).2.2.2.1 rfl rfl,
   (C5_stage_failures_nonfatal envAB ("a.txt".data) none rfl rfl (by decide)).2.2.2.2.1 rfl rfl,
   (C5_stage_failures_nonfatal envAB ("a.txt".data) none rfl rfl (by decide)).2.2.2.2.2.1 rfl rfl,
   (C5_stage_failures_nonfatal envAB ("a.txt".data) none rfl rfl (by decide)).2.2.2.2.2.2.1 rfl rfl⟩

/-- Looking up the key just set returns the new value. -/
theorem assocLookup_assocSet_self {α : Type} :
    ∀ (l : List (List Char × α)) (k : List Char) (v : α),
      assocLookup (assocSet l k v) k = some v := by
  intro l
  induction l with
  | nil =>
    intro k v
    unfold assocSet assocLookup
    rw [if_pos rfl]
  | cons kv t ih =>
    intro k v
    obtain ⟨k0, v0⟩ := kv
    unfold assocSet
    by_cases hk : k0 = k
    · rw [if_pos hk]
      unfold assocLookup
      rw [if_pos hk]
    · rw [if_neg hk]
      unfold assocLookup
      rw [if_neg hk]
      exact ih k v

/-- Setting one key leaves other lookups unchanged. -/
theorem assocLookup_assocSet_ne {α : Type} :
    ∀ (l : List (List Char × α)) (k q : List Char) (v : α), q ≠ k →
      assocLookup (assocSet l k v) q = assocLookup l q := by
  intro l
  induction l with
  | nil =>
    intro k q v hq
    unfold assocSet assocLookup
    rw [if_neg (fun h => hq h.symm)]
    rfl
  | cons kv t ih =>
    intro k q v hq
    obtain ⟨k0, v0⟩ := kv
    unfold assocSet
    by_cases hk : k0 = k
    · rw [if_pos hk]
      unfold assocLookup
      have hne : ¬ (k0 = q) := fun h => hq (h.symm.trans hk)
      rw [if_neg hne, if_neg hne]
    · rw [if_neg hk]
      unfold assocLookup
      by_cases hk0q : k0 = q
      · rw [if_pos hk0q, if_pos hk0q]
      · rw [if_neg hk0q, if_neg hk0q]
        exact ih k q v hq

/-- Setting an absent key grows the dict by one entry. -/
theorem length_assocSet_new {α : Type} :
    ∀ (l : List (List Char × α)) (k : List Char) (v : α),
      assocLookup l k = none → (assocSet l k v).length = l.length + 1 := by
  intro l
  induction l with
  | nil => intro k v _; rfl
  | cons kv t ih =>
    intro k v h
    obtain ⟨k0, v0⟩ := kv
    unfold assocLookup at h
    unfold assocSet
    by_cases hk : k0 = k
    · rw [if_pos hk] at h
      cases h
    · rw [if_neg hk] at h
      rw [if_neg hk]
      simp only [List.length_cons, ih k v h]

/-- Every single-document run ends with status completed or failed. -/
theorem legalProcessDocument_status (env : Env) (p : List Char)
    (optsIn : Option AnalysisOptions) :
    (legalProcessDocument env p optsIn).status = "completed".data ∨
    (legalProcessDocument env p optsIn).status = "failed".data := by
  cases h1 : env.validateOk with
  | false =>
    right
    simp only [legalProcessDocument, h1, Bool.not_false, if_true, exceptResult]
  | true =>
    cases h2 : (optsIn.getD defaultAnalysisOptions).extract_text with
    | false =>
      right
      simp only [legalProcessDocument, h1, h2, Bool.not_true, Bool.not_false,
        Bool.false_eq_true, if_false, if_true, exceptResult]
    | true =>
      cases h3 : env.extractData.text.isEmpty with
      | true =>
        right
        simp only [legalProcessDocument, h1, h2, h3, Bool.not_true,
          Bool.false_eq_true, if_false, if_true]
      | false =>
        left
        simp only [legalProcessDocument, h1, h2, h3, Bool.not_true,
          Bool.false_eq_true, if_false, if_true, ite_self,
          ite_status, ite_error, ite_summary, ite_entities, ite_clauses,
          ite_bullet_points, ite_risk_analysis, ite_relationships]

/-- Loop invariant of `process_multiple_documents`: over distinct paths not
yet recorded, the dict gains one entry per path, the counters add up by
status, every path maps to its own document result, and previously recorded
entries survive. -/
theorem batchLoop_spec (benv : BatchEnv) (optsIn : Option AnalysisOptions) :
    ∀ (paths : List (List Char)) (st : BatchState), paths.Nodup →
      (∀ p ∈ paths, assocLookup st.individual p = none) →
      ((batchLoop benv optsIn paths st).individual.length
          = st.individual.length + paths.length) ∧
      ((batchLoop benv optsIn paths st).fails
          = st.fails + paths.countP (fun p =>
              decide ((legalProcessDocument (benv.docEnv p) p optsIn).status = "failed".data))) ∧
      ((batchLoop benv optsIn paths st).suc
          = st.suc + paths.countP (fun p =>
              decide ((legalProcessDocument (benv.docEnv p) p optsIn).status = "completed".data))) ∧
      (∀ p ∈ paths, assocLookup (batchLoop benv optsIn paths st).individual p
          = some (legalProcessDocument (benv.docEnv p) p optsIn)) ∧
      (∀ q, assocLookup st.individual q ≠ none →
        assocLookup (batchLoop benv optsIn paths st).individual q
          = assocLookup st.individual q) := by
  intro paths
  induction paths with
  | nil =>
    intro st hnd hnone
    exact ⟨rfl, rfl, rfl, fun p hp => absurd hp (List.not_mem_nil p), fun q hq => rfl⟩
  | cons p ps ih =>
    intro st hnd hnone
    obtain ⟨hp_nin, hnd_ps⟩ := List.nodup_cons.mp hnd
    have hnone_p : assocLookup st.individual p = none := hnone p (List.mem_cons_self p ps)
    by_cases hc : (legalProcessDocument (benv.docEnv p) p optsIn).status = "completed".data
    · have hstep : batchLoop benv optsIn (p :: ps) st =
          batchLoop benv optsIn ps
            ⟨st.suc + 1, st.fails,
             assocSet st.individual p (legalProcessDocument (benv.docEnv p) p optsIn),
             st.sucList ++ [legalProcessDocument (benv.docEnv p) p optsIn]⟩ := by
        simp only [batchLoop]
        rw [if_pos hc]
      set st2 : BatchState :=
        ⟨st.suc + 1, st.fails,
         assocSet st.individual p (legalProcessDocument (benv.docEnv p) p optsIn),
         st.sucList ++ [legalProcessDocument (benv.docEnv p) p optsIn]⟩
      have hnone2 : ∀ q ∈ ps, assocLookup st2.individual q = none := by
        intro q hqs
        have hqp : q ≠ p := fun h => hp_nin (h ▸ hqs)
        show assocLookup (assocSet st.individual p _) q = none
        rw [assocLookup_assocSet_ne st.individual p q _ hqp]
        exact hnone q (List.mem_cons_of_mem p hqs)
      obtain ⟨ih1, ih2, ih3, ih4, ih5⟩ := ih st2 hnd_ps hnone2
      have hpf : decide ((legalProcessDocument (benv.docEnv p) p optsIn).status
          = "failed".data) = false := by
        rw [hc]
        decide
      have hpc : decide ((legalProcessDocument (benv.docEnv p) p optsIn).status
          = "completed".data) = true := decide_eq_true hc
      rw [hstep]
      refine ⟨?_, ?_, ?_, ?_, ?_⟩
      · rw [ih1]
        show (assocSet st.individual p _).length + ps.length
          = st.individual.length + (p :: ps).length
        rw [length_assocSet_new st.individual p _ hnone_p, List.length_cons]
        omega
      · rw [ih2]
        show st.fails + _ = st.fails + List.countP _ (p :: ps)
        rw [List.countP_cons, hpf]
        simp
      · rw [ih3]
        have hs2 : st2.suc = st.suc + 1 := rfl
        rw [List.countP_cons, hpc, hs2, if_pos rfl]
        omega
      · intro q hq
        rcases List.mem_cons.mp hq with hq1 | hq2
        · subst hq1
          have hlook2 : assocLookup st2.individual q
              = some (legalProcessDocument (benv.docEnv q) q optsIn) := by
            show assocLookup (assocSet st.individual q _) q = _
            exact assocLookup_assocSet_self st.individual q _
          rw [ih5 q (by rw [hlook2]; exact fun h => Option.noConfusion h), hlook2]
        · exact ih4 q hq2
      · intro q hq
        have hqp : q ≠ p := fun h => hq (h ▸ hnone_p)
        have hset : assocLookup st2.individual q = assocLookup st.individual q := by
          show assocLookup (assocSet st.individual p _) q = _
          exact assocLookup_assocSet_ne st.individual p q _ hqp
        rw [ih5 q (by rw [hset]; exact hq), hset]
    · have hcf : (legalProcessDocument (benv.docEnv p) p optsIn).status = "failed".data :=
        (legalProcessDocument_status (benv.docEnv p) p optsIn).resolve_left hc
      have hstep : batchLoop benv optsIn (p :: ps) st =
          batchLoop benv optsIn ps
            ⟨st.suc, st.fails + 1,
             assocSet st.individual p (legalProcessDocument (benv.docEnv p) p optsIn),
             st.sucList⟩ := by
        simp only [batchLoop]
        rw [if_neg hc]
      set st2 : BatchState :=
        ⟨st.suc, st.fails + 1,
         assocSet st.individual p (legalProcessDocument (benv.docEnv p) p optsIn),
         st.sucList⟩
      have hnone2 : ∀ q ∈ ps, assocLookup st2.individual q = none := by
        intro q hqs
        have hqp : q ≠ p := fun h => hp_nin (h ▸ hqs)
        show assocLookup (assocSet st.individual p _) q = none
        rw [assocLookup_assocSet_ne st.individual p q _ hqp]
        exact hnone q (List.mem_cons_of_mem p hqs)
      obtain ⟨ih1, ih2, ih3, ih4, ih5⟩ := ih st2 hnd_ps hnone2
      have hpf : decide ((legalProcessDocument (benv.docEnv p) p optsIn).status
          = "failed".data) = true := decide_eq_true hcf
      have hpc : decide ((legalProcessDocument (benv.docEnv p) p optsIn).status
          = "completed".data) = false := by
        rw [hcf]
        decide
      rw [hstep]
      refine ⟨?_, ?_, ?_, ?_, ?_⟩
      · rw [ih1]
        show (assocSet st.individual p _).length + ps.length
          = st.individual.length + (p :: ps).length
        rw [length_assocSet_new st.individual p _ hnone_p, List.length_cons]
        omega
      · rw [ih2]
        have hf2 : st2.fails = st.fails + 1 := rfl
        rw [List.countP_cons, hpf, hf2, if_pos rfl]
        omega
      · rw [ih3]
        show st.suc + _ = st.suc + List.countP _ (p :: ps)
        rw [List.countP_cons, hpc]
        simp
      · intro q hq
        rcases List.mem_cons.mp hq with hq1 | hq2
        · subst hq1
          have hlook2 : assocLookup st2.individual q
              = some (legalProcessDocument (benv.docEnv q) q optsIn) := by
            show assocLookup (assocSet st.individual q _) q = _
            exact assocLookup_assocSet_self st.individual q _
          rw [ih5 q (by rw [hlook2]; exact fun h => Option.noConfusion h), hlook2]
        · exact ih4 q hq2
      · intro q hq
        have hqp : q ≠ p := fun h => hq (h ▸ hnone_p)
        have hset : assocLookup st2.individual q = assocLookup st.individual q := by
          show assocLookup (assocSet st.individual p _) q = _
          exact assocLookup_assocSet_ne st.individual p q _ hqp
        rw [ih5 q (by rw [hset]; exact hq), hset]

/-- Counting two pointwise-complementary predicates covers the list. -/
theorem countP_add_countP_of_compl {α : Type} (f g : α → Bool) :
    ∀ l : List α, (∀ x ∈ l, g x = !f x) →
      l.countP g + l.countP f = l.length := by
  intro l
  induction l with
  | nil => intro h; rfl
  | cons a t ih =>
    intro h
    have ha := h a (List.mem_cons_self a t)
    have ht := ih (fun x hx => h x (List.mem_cons_of_mem a hx))
    rw [List.countP_cons, List.countP_cons, List.length_cons]
    cases hf : f a <;> rw [hf] at ha <;> simp only [ha, Bool.not_false, Bool.not_true,
      if_true, if_false, Bool.false_eq_true, Bool.true_eq_false] <;> omega

/-- C7 (amended): for a batch of pairwise-distinct file paths in which
exactly one document run fails, the batch result records one entry per path
(so N entries), the failed counter is 1, processed_successfully is N − 1,
and every path — the failing one included — maps to its own per-document
result, so every document was processed. -/
theorem C7_amended (benv : BatchEnv) (paths : List (List Char))
    (optsIn : Option AnalysisOptions)
    (hnd : paths.Nodup)
    (hone : paths.countP (fun p =>
        decide ((legalProcessDocument (benv.docEnv p) p optsIn).status
          = "failed".data)) = 1) :
    (processMultipleDocuments benv paths optsIn).individual_results.length
      = paths.length ∧
    (processMultipleDocuments benv paths optsIn).failed = 1 ∧
    (processMultipleDocuments benv paths optsIn).processed_successfully
      = paths.length - 1 ∧
    (∀ p ∈ paths,
      assocLookup (processMultipleDocuments benv paths optsIn).individual_results p
        = some (legalProcessDocument (benv.docEnv p) p optsIn)) := by
  obtain ⟨h1, h2, h3, h4, h5⟩ := batchLoop_spec benv optsIn paths ⟨0, 0, [], []⟩ hnd
    (fun p hp => rfl)
  have hproj1 : (processMultipleDocuments benv paths optsIn).individual_results
      = (batchLoop benv optsIn paths ⟨0, 0, [], []⟩).individual := rfl
  have hproj2 : (processMultipleDocuments benv paths optsIn).failed
      = (batchLoop benv optsIn paths ⟨0, 0, [], []⟩).fails := rfl
  have hproj3 : (processMultipleDocuments benv paths optsIn).processed_successfully
      = (batchLoop benv optsIn paths ⟨0, 0, [], []⟩).suc := rfl
  have hcomp := countP_add_countP_of_compl
    (fun p => decide ((legalProcessDocument (benv.docEnv p) p optsIn).status
      = "failed".data))
    (fun p => decide ((legalProcessDocument (benv.docEnv p) p optsIn).status
      = "completed".data))
    paths
    (fun x hx => by
      rcases legalProcessDocument_status (benv.docEnv x) x optsIn with hs | hs <;>
        simp only [] <;> rw [hs] <;> decide)
  have hz1 : (⟨0, 0, [], []⟩ : BatchState).individual = ([] : List (List Char × Results)) := rfl
  have hz2 : (⟨0, 0, [], []⟩ : BatchState).fails = 0 := rfl
  have hz3 : (⟨0, 0, [], []⟩ : BatchState).suc = 0 := rfl
  rw [hz1] at h1
  rw [hz2] at h2
  rw [hz3] at h3
  rw [List.length_nil] at h1
  rw [Nat.zero_add] at h1 h2 h3
  refine ⟨?_, ?_, ?_, ?_⟩
  · rw [hproj1, h1]
  · rw [hproj2, h2, hone]
  · rw [hproj3, h3]
    omega
  · intro p hp
    rw [hproj1]
    exact h4 p hp

/-- Counterexample to C7: a batch of 3 paths whose last two are the same
successful file yields only 2 entries in the path-keyed
`individual_results` dict, although the counters see all 3 runs. -/
theorem C7_counterexample :
    pathsC7.length = 3 ∧
    (processMultipleDocuments benvC7 pathsC7 none).individual_results.length = 2 ∧
    (processMultipleDocuments benvC7 pathsC7 none).failed = 1 ∧
    (processMultipleDocuments benvC7 pathsC7 none).processed_successfully = 2 := by
  exact ⟨rfl, rfl, rfl, rfl⟩

/-- Witness for the amended C7 on the two distinct paths of `benvC7`: two
entries, one failure, one success, both documents processed and recorded. -/
theorem C7_amended_witness :
    (processMultipleDocuments benvC7 (["a.txt".data, "b.txt".data]) none).individual_results.length = 2 ∧
    (processMultipleDocuments benvC7 (["a.txt".data, "b.txt".data]) none).failed = 1 ∧
    (processMultipleDocuments benvC7 (["a.txt".data, "b.txt".data]) none).processed_successfully = 1 ∧
    (∀ p ∈ (["a.txt".data, "b.txt".data] : List (List Char)),
      assocLookup
        (processMultipleDocuments benvC7 (["a.txt".data, "b.txt".data]) none).individual_results p
        = some (legalProcessDocument (benvC7.docEnv p) p none)) :=
  C7_amended benvC7 (["a.txt".data, "b.txt".data]) none (by decide) (by rfl)

/-- `Int.log 2` is pinned down by the enclosing binade. -/
theorem int_log2_eq (r : ℚ) (e : ℤ) (hr : 0 < r)
    (h1 : (2:ℚ) ^ e ≤ r) (h2 : r < (2:ℚ) ^ (e + 1)) : Int.log 2 r = e := by
  have hc : ((2:ℕ) : ℚ) = (2:ℚ) := by norm_num
  have h1c : ((2:ℕ) : ℚ) ^ e ≤ r := by rw [hc]; exact h1
  have h2c : r < ((2:ℕ) : ℚ) ^ (e + 1) := by rw [hc]; exact h2
  have hl : e ≤ Int.log 2 r := (Int.zpow_le_iff_le_log (by norm_num) hr).mp h1c
  have hu : Int.log 2 r < e + 1 := (Int.lt_zpow_iff_log_lt (by norm_num) hr).mp h2c
  omega

/-- On positive inputs `fl` is the positive-case rounding. -/
theorem fl_of_pos (q : ℚ) (hq : 0 < q) : fl q = flPos q := by
  unfold fl
  rw [if_neg (not_lt.mpr hq.le), if_neg (ne_of_gt hq)]

/-- Evaluation rule for `flPos`: exhibit the binade and the rounded
significand. -/
theorem flPos_eq (q : ℚ) (e n : ℤ)
    (hr : 0 < q) (h1 : (2:ℚ) ^ e ≤ q) (h2 : q < (2:ℚ) ^ (e + 1))
    (hn : rne (q * (2:ℚ) ^ ((52:ℤ) - e)) = n) :
    flPos q = (n : ℚ) * (2:ℚ) ^ (e - (52:ℤ)) := by
  unfold flPos
  rw [int_log2_eq q e hr h1 h2, hn]

/-- Scaled significand of the decimal literals 0.8, 0.2 and 0.1: the
fraction 0.6 above the floor rounds up. -/
theorem rne_dec_sig : rne ((36028797018963968:ℚ)/5) = 7205759403792794 := by
  have hf : ⌊(36028797018963968/5 : ℚ)⌋ = 7205759403792793 := by
    rw [Int.floor_eq_iff]
    norm_num
  unfold rne
  rw [hf, if_neg (by push_cast; norm_num), if_pos (by push_cast; norm_num)]
  norm_num

/-- Scaled significand of `0.8 - 0.2`: an exact tie on an odd floor rounds
up to the even neighbour. -/
theorem rne_tie : rne ((10808639105689191:ℚ)/2) = 5404319552844596 := by
  have hf : ⌊(10808639105689191/2 : ℚ)⌋ = 5404319552844595 := by
    rw [Int.floor_eq_iff]
    norm_num
  unfold rne
  rw [hf, if_neg (by push_cast; norm_num), if_neg (by push_cast; norm_num),
    if_neg (by norm_num)]
  norm_num

/-- Rounding an integer is the identity (used for exact significands). -/
theorem rne_int (n : ℤ) : rne ((n:ℚ)) = n := by
  have hf : ⌊((n:ℚ))⌋ = n := Int.floor_intCast n
  unfold rne
  rw [hf, if_pos (by norm_num)]

/-- The double nearest 0.8. -/
theorem fl_08 : fl ((8:ℚ)/10) = 3602879701896397/4503599627370496 := by
  rw [fl_of_pos _ (by norm_num),
    flPos_eq ((8:ℚ)/10) (-1) 7205759403792794 (by norm_num)
      (by norm_num) (by norm_num)
      (by rw [show ((8:ℚ)/10) * (2:ℚ) ^ ((52:ℤ) - (-1)) = 36028797018963968/5 by norm_num]
          exact rne_dec_sig)]
  norm_num

/-- The double nearest 0.2. -/
theorem fl_02 : fl ((2:ℚ)/10) = 3602879701896397/18014398509481984 := by
  rw [fl_of_pos _ (by norm_num),
    flPos_eq ((2:ℚ)/10) (-3) 7205759403792794 (by norm_num)
      (by norm_num) (by norm_num)
      (by rw [show ((2:ℚ)/10) * (2:ℚ) ^ ((52:ℤ) - (-3)) = 36028797018963968/5 by norm_num]
          exact rne_dec_sig)]
  norm_num

/-- The double nearest 0.1. -/
theorem fl_01 : fl ((1:ℚ)/10) = 3602879701896397/36028797018963968 := by
  rw [fl_of_pos _ (by norm_num),
    flPos_eq ((1:ℚ)/10) (-4) 7205759403792794 (by norm_num)
      (by norm_num) (by norm_num)
      (by rw [show ((1:ℚ)/10) * (2:ℚ) ^ ((52:ℤ) - (-4)) = 36028797018963968/5 by norm_num]
          exact rne_dec_sig)]
  norm_num

/-- 1.0 is exactly representable. -/
theorem fl_one : fl (1:ℚ) = 1 := by
  rw [fl_of_pos _ (by norm_num),
    flPos_eq (1:ℚ) 0 4503599627370496 (by norm_num)
      (by norm_num) (by norm_num)
      (by rw [show (1:ℚ) * (2:ℚ) ^ ((52:ℤ) - 0) = ((4503599627370496:ℤ) : ℚ) by norm_num]
          exact rne_int 4503599627370496)]
  norm_num

/-- IEEE evaluation of `0.8 - 0.2`: the exact difference is a tie and rounds
to even, giving 0.6000000000000001. -/
theorem fl_06 : fl ((10808639105689191:ℚ)/18014398509481984)
    = 5404319552844596/9007199254740992 := by
  rw [fl_of_pos _ (by norm_num),
    flPos_eq ((10808639105689191:ℚ)/18014398509481984) (-1) 5404319552844596
      (by norm_num) (by norm_num) (by norm_num)
      (by rw [show ((10808639105689191:ℚ)/18014398509481984) * (2:ℚ) ^ ((52:ℤ) - (-1))
            = 10808639105689191/2 by norm_num]
          exact rne_tie)]
  norm_num

/-- IEEE evaluation of `0.6000000000000001 - 0.2`: the exact difference is
representable, giving 0.4000000000000001. -/
theorem fl_04 : fl ((7205759403792795:ℚ)/18014398509481984)
    = 7205759403792795/18014398509481984 := by
  rw [fl_of_pos _ (by norm_num),
    flPos_eq ((7205759403792795:ℚ)/18014398509481984) (-2) 7205759403792795
      (by norm_num) (by norm_num) (by norm_num)
      (by rw [show ((7205759403792795:ℚ)/18014398509481984) * (2:ℚ) ^ ((52:ℤ) - (-2))
            = ((7205759403792795:ℤ) : ℚ) by norm_num]
          exact rne_int 7205759403792795)]
  norm_num

/-- Full IEEE evaluation of the estimator on the worked example: the two
subtractions fire, no bonus fires, and the clamp leaves the value unchanged,
giving exactly 7205759403792795/2^54 = 0.4000000000000001. -/
theorem estimateConfidenceFl_c9 :
    estimateConfidenceFl c9Answer = 7205759403792795/18014398509481984 := by
  have he : c9Answer.isEmpty = false := by decide
  have h1 : containsL (pyLower c9Answer) ("might".data) = true := by decide
  have h2 : containsL (pyLower c9Answer) ("could".data) = false := by decide
  have h3 : containsL (pyLower c9Answer) ("possibly".data) = true := by decide
  have h4 : containsL (pyLower c9Answer) ("unclear".data) = false := by decide
  have h5 : containsL (pyLower c9Answer) ("not specified".data) = false := by decide
  have h6 : containsL (pyLower c9Answer) ("not mentioned".data) = false := by decide
  have h7 : containsL c9Answer [dq] = false := by decide
  have h8 : containsL (pyLower c9Answer) ("section".data) = false := by decide
  simp only [estimateConfidenceFl, uncertainPhrases, List.foldl_cons, List.foldl_nil,
    he, h1, h2, h3, h4, h5, h6, h7, h8, Bool.false_eq_true, if_false, if_true, or_self]
  rw [fl_08, fl_02, fl_01, fl_one]
  unfold fsub
  rw [show ((3602879701896397:ℚ)/4503599627370496 - 3602879701896397/18014398509481984)
      = 10808639105689191/18014398509481984 by norm_num]
  rw [fl_06]
  rw [show ((5404319552844596:ℚ)/9007199254740992 - 3602879701896397/18014398509481984)
      = 7205759403792795/18014398509481984 by norm_num]
  rw [fl_04]
  unfold pyMin
  rw [if_neg (by norm_num)]
  unfold pyMax
  rw [if_neg (by norm_num)]

/-- Counterexample to C9: under IEEE-754 binary64 arithmetic the program
computes `0.8 - 0.2 - 0.2 = 0.4000000000000001`, so the estimator does not
return exactly 0.4 on the worked example. -/
theorem C9_counterexample : ¬ (estimateConfidenceFl c9Answer = 2/5) := by
  rw [estimateConfidenceFl_c9]
  norm_num

/-- C9 (amended): on "This might possibly be the case" the estimator returns
the IEEE-754 evaluation of 0.8 − 0.2 − 0.2, namely
7205759403792795/2^54 = 0.4000000000000001 — within one ulp above 0.4 — with
the subtractions for "might" and "possibly" firing, no bonus, and the clamp
leaving the value unchanged. -/
theorem C9_amended :
    estimateConfidenceFl c9Answer = 7205759403792795/18014398509481984 ∧
    2/5 < estimateConfidenceFl c9Answer ∧
    estimateConfidenceFl c9Answer < 2/5 + 1/4503599627370496 := by
  refine ⟨estimateConfidenceFl_c9, ?_, ?_⟩ <;> rw [estimateConfidenceFl_c9] <;> norm_num
